import Mathlib

/-!
# UnrealEngine-Toon: verification development

Shallow embedding of parts of the engine sources and theorems about them.

* `LowLevelTasks` : `Source/Runtime/Core/Public/Async/Fundamental/Scheduler.h`
* `SimpleCellGrid` : `Source/Runtime/AIModule/Public/SimpleCellGrid.h`
* `WorldLocations` : `Source/Runtime/Experimental/Iris/Core/.../WorldLocations.{h,cpp}`
* `TraceChannel` : `Source/Runtime/TraceLog/Private/Trace/Channel.cpp`
* `AsyncFileHandle` : `Source/Runtime/Core/Public/Async/AsyncFileHandle.h`
* `ToonOutline` : `Source/Runtime/Renderer/Private/ToonOutlinePassRendering.{h,cpp}`

Conventions.  Machine integers are `Nat`/`Int` with the conversions written
out (`% 2^32`).  A function whose defining file is missing from the sources is
a parameter of the embedding or, where a theorem needs what it does, a
definition whose comment starts with "Modelled from the spec:".  Stateful code
is written in state-passing style.  Definitions come first, theorems after
them.
-/

/-! ## Machine integers and vectors

`uint32` values are natural numbers below `2^32`, `int32` values are integers
from `-2^31` to `2^31 - 1`.  `float` and `double` values are rational numbers:
every finite floating-point value is one, and comparing, assigning and taking
the minimum or maximum of such values is exact. -/

/-- Conversion of an integer value to `int32` (two's complement wrap). -/
def castInt32 (x : Int) : Int :=
  (x + 2147483648) % 4294967296 - 2147483648

/-- Conversion of an integer value to `uint32` (reduction modulo `2^32`). -/
def castUInt32 (x : Int) : Nat :=
  (x % 4294967296).toNat

/-- The struct `FVector`: three coordinates. -/
structure FVector where
  X : ℚ
  Y : ℚ
  Z : ℚ
  deriving DecidableEq

namespace LowLevelTasks

/-! ## Scheduler.h -/

/-- The enum `EQueuePreference` (`DefaultPreference` is an alias of
`LocalQueuePreference`). -/
inductive EQueuePreference
  | GlobalQueuePreference
  | LocalQueuePreference
  deriving DecidableEq, Repr

/-- The alias `EQueuePreference::DefaultPreference = LocalQueuePreference`. -/
def EQueuePreference.DefaultPreference : EQueuePreference :=
  EQueuePreference.LocalQueuePreference

/-- A call, made by one of the inline functions of `Scheduler.h`, to a member
function of `FScheduler` that is defined out of line (`CORE_API`).  `σ` is the
type of the world those functions act on (task states, queues, workers) and
`Task` the type of task references. -/
inductive FCall (σ Task : Type)
  | LaunchInternal (Task : Task) (QueuePreference : EQueuePreference) (bWakeUpWorker : Bool)
  | BusyWaitInternal (Conditional : σ → Bool × σ) (ForceAllowBackgroundWork : Bool)

/-- The functions the inline code of `Scheduler.h` calls and whose bodies are
not in that header: `FTask::TryPrepareLaunch` (returns the flag and the new
world), `FScheduler::LaunchInternal`, and `FScheduler::BusyWaitInternal`
(`none` when the call never returns). -/
structure FExterns (σ Task : Type) where
  TryPrepareLaunch : Task → σ → Bool × σ
  LaunchInternal : Task → EQueuePreference → Bool → σ → σ
  BusyWaitInternal : (σ → Bool × σ) → Bool → σ → Option σ

/-- State threaded through the inline functions: the world, and the calls to
out-of-line scheduler functions made so far, oldest first. -/
structure FState (σ Task : Type) where
  World : σ
  Calls : List (FCall σ Task)

/-- `FScheduler::TryLaunch` (Scheduler.h, lines 366-374):
```
if(Task.TryPrepareLaunch()) { LaunchInternal(Task, QueuePreference, bWakeUpWorker); return true; }
return false;
``` -/
def FScheduler.TryLaunch {σ Task : Type} (E : FExterns σ Task) (T : Task)
    (QueuePreference : EQueuePreference) (bWakeUpWorker : Bool)
    (s : FState σ Task) : Bool × FState σ Task :=
  match E.TryPrepareLaunch T s.World with
  | (true, w) =>
      (true, { World := E.LaunchInternal T QueuePreference bWakeUpWorker w,
               Calls := s.Calls ++ [FCall.LaunchInternal T QueuePreference bWakeUpWorker] })
  | (false, w) => (false, { World := w, Calls := s.Calls })

/-- `FScheduler::BusyWaitUntil` (Scheduler.h, lines 396-406):
```
if(!Cond()) { FScheduler::BusyWaitInternal(Forward<Conditional>(Cond), ForceAllowBackgroundWork); }
```
The result is `none` when the function does not return. -/
def FScheduler.BusyWaitUntil {σ Task : Type} (E : FExterns σ Task)
    (Cond : σ → Bool × σ) (ForceAllowBackgroundWork : Bool)
    (s : FState σ Task) : Option (FState σ Task) :=
  match Cond s.World with
  | (false, w) =>
      (E.BusyWaitInternal Cond ForceAllowBackgroundWork w).map fun w1 =>
        { World := w1,
          Calls := s.Calls ++ [FCall.BusyWaitInternal Cond ForceAllowBackgroundWork] }
  | (true, w) => some { World := w, Calls := s.Calls }

/-! ### Two concurrent calls of `TryLaunch` on one task

`Task.h` is not among the sources at hand, so the task's launch flag is
modelled from the specification.  A thread running `TryLaunch(T)` performs two
steps, the call of `TryPrepareLaunch` (one atomic read-modify-write) and, when
that returned `true`, the call of `LaunchInternal`.  A worker, also modelled
from the specification, takes the task from the queue and executes it.  The
steps of the two threads and of the worker interleave in an arbitrary order
given by a schedule. -/

/-- The task states of the specification's data model (the first one is also
called Uninitialized there). -/
inductive ETaskState
  | Unscheduled
  | Scheduled
  | Running
  | Completed
  deriving DecidableEq, Repr

/-- Modelled from the spec: `FTask::TryPrepareLaunch` (defined in `Task.h`,
which is missing) is "an atomic compare-and-set from Unscheduled to Scheduled"
that returns "false (no side effects) if already launched or completed". -/
def FTask.TryPrepareLaunch (State : ETaskState) : Bool × ETaskState :=
  match State with
  | ETaskState.Unscheduled => (true, ETaskState.Scheduled)
  | ETaskState.Scheduled => (false, ETaskState.Scheduled)
  | ETaskState.Running => (false, ETaskState.Running)
  | ETaskState.Completed => (false, ETaskState.Completed)

/-- Where a thread stands inside `FScheduler::TryLaunch`. -/
inductive ETryLaunchPc
  | AtTryPrepareLaunch
  | AtLaunchInternal
  | Returned (Result : Bool)
  deriving DecidableEq, Repr

/-- Where the worker stands: looking for work, or inside `Execute()` of the
task it has dequeued. -/
inductive EWorkerPc
  | Idle
  | Executing
  deriving DecidableEq, Repr

/-- The two threads that call `TryLaunch(T)`, and the worker. -/
inductive EThread
  | A
  | B
  | Worker
  deriving DecidableEq, Repr

/-- Shared state and the positions of the two threads and of the worker.
`Enqueued` counts how often `LaunchInternal` has pushed the task on a queue,
`Dequeued` how often the worker has taken it off again (the queue holds the
task `Enqueued - Dequeued` times), and `Executed` how often `Execute()` has
been invoked on it. -/
structure FTwoLaunches where
  TaskState : ETaskState
  Enqueued : Nat
  Dequeued : Nat
  Executed : Nat
  PcA : ETryLaunchPc
  PcB : ETryLaunchPc
  PcWorker : EWorkerPc
  deriving DecidableEq, Repr

/-- Modelled from the spec: `FScheduler::LaunchInternal` (defined in
`Scheduler.cpp`, which is missing) "pushes the task" on a queue; `Enqueued`
counts how often the task has been pushed. -/
def LaunchInternalPush (Enqueued : Nat) : Nat :=
  Enqueued + 1

/-- One step of one thread through the body of `FScheduler::TryLaunch`
(Scheduler.h, lines 366-374): the call of `TryPrepareLaunch`, then, when that
returned `true`, the call of `LaunchInternal` followed by `return true`, else
`return false`.  A thread that has returned does nothing. -/
def TryLaunchStep (State : ETaskState) (Enqueued : Nat) (Pc : ETryLaunchPc) :
    ETaskState × Nat × ETryLaunchPc :=
  match Pc with
  | ETryLaunchPc.AtTryPrepareLaunch =>
      match FTask.TryPrepareLaunch State with
      | (true, State1) => (State1, Enqueued, ETryLaunchPc.AtLaunchInternal)
      | (false, State1) => (State1, Enqueued, ETryLaunchPc.Returned false)
  | ETryLaunchPc.AtLaunchInternal =>
      (State, LaunchInternalPush Enqueued, ETryLaunchPc.Returned true)
  | ETryLaunchPc.Returned r => (State, Enqueued, ETryLaunchPc.Returned r)

/-- The externs of `FScheduler::TryLaunch` in the two-thread model: the world
is the task's state and the number of times it has been pushed. -/
def TwoLaunchesExterns : FExterns (ETaskState × Nat) Unit where
  TryPrepareLaunch := fun _ w =>
    ((FTask.TryPrepareLaunch w.1).1, ((FTask.TryPrepareLaunch w.1).2, w.2))
  LaunchInternal := fun _ _ _ w => (w.1, LaunchInternalPush w.2)
  BusyWaitInternal := fun _ _ _ => none

/-- Modelled from the spec: one step of a worker (the worker loop is in
`Scheduler.cpp` and `Execute` in `Task.h`, both missing).  An idle worker
takes the task from the queue when the queue holds it, and `Execute()` is
"invoked only by a worker that successfully dequeued the task; transitions
state to Running, invokes payload, transitions to Completed".  An idle worker
that finds no work stays idle. -/
def FTwoLaunches.WorkerStep (c : FTwoLaunches) : FTwoLaunches :=
  match c.PcWorker with
  | EWorkerPc.Idle =>
      if c.Dequeued < c.Enqueued then
        { c with
          Dequeued := c.Dequeued + 1
          Executed := c.Executed + 1
          TaskState := ETaskState.Running
          PcWorker := EWorkerPc.Executing }
      else c
  | EWorkerPc.Executing =>
      { c with TaskState := ETaskState.Completed, PcWorker := EWorkerPc.Idle }

/-- The thread `t` takes its next step. -/
def FTwoLaunches.Step (c : FTwoLaunches) (t : EThread) : FTwoLaunches :=
  match t with
  | EThread.A =>
      match TryLaunchStep c.TaskState c.Enqueued c.PcA with
      | (s, n, pc) => { c with TaskState := s, Enqueued := n, PcA := pc }
  | EThread.B =>
      match TryLaunchStep c.TaskState c.Enqueued c.PcB with
      | (s, n, pc) => { c with TaskState := s, Enqueued := n, PcB := pc }
  | EThread.Worker => c.WorkerStep

/-- The threads step in the order the schedule gives. -/
def FTwoLaunches.Run (c : FTwoLaunches) (Schedule : List EThread) : FTwoLaunches :=
  Schedule.foldl FTwoLaunches.Step c

/-- Both threads are about to call `TryLaunch(T)` and the worker is idle; the
two calls have enqueued nothing yet and nothing they enqueue has been
executed. -/
def FTwoLaunches.Start (State : ETaskState) : FTwoLaunches :=
  { TaskState := State, Enqueued := 0, Dequeued := 0, Executed := 0,
    PcA := ETryLaunchPc.AtTryPrepareLaunch, PcB := ETryLaunchPc.AtTryPrepareLaunch,
    PcWorker := EWorkerPc.Idle }

/-- The property "two concurrent calls of `TryLaunch(T)`: exactly one returns
true, the other false, and T is enqueued (and hence executed) exactly once",
for a task that is in state `State` when the calls start.  Under every
schedule: when each thread has had at least two steps both calls have
returned; whenever both calls have returned, the results differ and the task
has been enqueued once; at no time has the task been enqueued more than once
or `Execute()` been invoked more than once; and once both calls have
returned, two more steps of the worker leave the task executed exactly once
and completed. -/
def ExactlyOneLaunch (State : ETaskState) : Prop :=
  ∀ Schedule : List EThread,
    (2 ≤ Schedule.count EThread.A → 2 ≤ Schedule.count EThread.B →
      ∃ a b, ((FTwoLaunches.Start State).Run Schedule).PcA = ETryLaunchPc.Returned a
        ∧ ((FTwoLaunches.Start State).Run Schedule).PcB = ETryLaunchPc.Returned b)
    ∧ (∀ a b, ((FTwoLaunches.Start State).Run Schedule).PcA = ETryLaunchPc.Returned a →
        ((FTwoLaunches.Start State).Run Schedule).PcB = ETryLaunchPc.Returned b →
        a ≠ b ∧ ((FTwoLaunches.Start State).Run Schedule).Enqueued = 1)
    ∧ (((FTwoLaunches.Start State).Run Schedule).Enqueued ≤ 1
        ∧ ((FTwoLaunches.Start State).Run Schedule).Executed ≤ 1)
    ∧ (∀ a b, ((FTwoLaunches.Start State).Run Schedule).PcA = ETryLaunchPc.Returned a →
        ((FTwoLaunches.Start State).Run Schedule).PcB = ETryLaunchPc.Returned b →
        ((FTwoLaunches.Start State).Run
            (Schedule ++ [EThread.Worker, EThread.Worker])).Executed = 1
        ∧ ((FTwoLaunches.Start State).Run
            (Schedule ++ [EThread.Worker, EThread.Worker])).TaskState = ETaskState.Completed)

/-- The configurations two concurrent launches of an unscheduled task and the
worker can reach. -/
def FTwoLaunches.Reachable : List FTwoLaunches :=
  [ ⟨ETaskState.Unscheduled, 0, 0, 0,
      ETryLaunchPc.AtTryPrepareLaunch, ETryLaunchPc.AtTryPrepareLaunch, EWorkerPc.Idle⟩,
    ⟨ETaskState.Scheduled, 0, 0, 0,
      ETryLaunchPc.AtLaunchInternal, ETryLaunchPc.AtTryPrepareLaunch, EWorkerPc.Idle⟩,
    ⟨ETaskState.Scheduled, 0, 0, 0,
      ETryLaunchPc.AtTryPrepareLaunch, ETryLaunchPc.AtLaunchInternal, EWorkerPc.Idle⟩,
    ⟨ETaskState.Scheduled, 1, 0, 0,
      ETryLaunchPc.Returned true, ETryLaunchPc.AtTryPrepareLaunch, EWorkerPc.Idle⟩,
    ⟨ETaskState.Scheduled, 0, 0, 0,
      ETryLaunchPc.AtLaunchInternal, ETryLaunchPc.Returned false, EWorkerPc.Idle⟩,
    ⟨ETaskState.Scheduled, 0, 0, 0,
      ETryLaunchPc.Returned false, ETryLaunchPc.AtLaunchInternal, EWorkerPc.Idle⟩,
    ⟨ETaskState.Scheduled, 1, 0, 0,
      ETryLaunchPc.AtTryPrepareLaunch, ETryLaunchPc.Returned true, EWorkerPc.Idle⟩,
    ⟨ETaskState.Scheduled, 1, 0, 0,
      ETryLaunchPc.Returned true, ETryLaunchPc.Returned false, EWorkerPc.Idle⟩,
    ⟨ETaskState.Running, 1, 1, 1,
      ETryLaunchPc.Returned true, ETryLaunchPc.AtTryPrepareLaunch, EWorkerPc.Executing⟩,
    ⟨ETaskState.Scheduled, 1, 0, 0,
      ETryLaunchPc.Returned false, ETryLaunchPc.Returned true, EWorkerPc.Idle⟩,
    ⟨ETaskState.Running, 1, 1, 1,
      ETryLaunchPc.AtTryPrepareLaunch, ETryLaunchPc.Returned true, EWorkerPc.Executing⟩,
    ⟨ETaskState.Running, 1, 1, 1,
      ETryLaunchPc.Returned true, ETryLaunchPc.Returned false, EWorkerPc.Executing⟩,
    ⟨ETaskState.Completed, 1, 1, 1,
      ETryLaunchPc.Returned true, ETryLaunchPc.AtTryPrepareLaunch, EWorkerPc.Idle⟩,
    ⟨ETaskState.Running, 1, 1, 1,
      ETryLaunchPc.Returned false, ETryLaunchPc.Returned true, EWorkerPc.Executing⟩,
    ⟨ETaskState.Completed, 1, 1, 1,
      ETryLaunchPc.AtTryPrepareLaunch, ETryLaunchPc.Returned true, EWorkerPc.Idle⟩,
    ⟨ETaskState.Completed, 1, 1, 1,
      ETryLaunchPc.Returned true, ETryLaunchPc.Returned false, EWorkerPc.Idle⟩,
    ⟨ETaskState.Completed, 1, 1, 1,
      ETryLaunchPc.Returned false, ETryLaunchPc.Returned true, EWorkerPc.Idle⟩ ]

/-- Steps a thread still has to take before its call returns. -/
def ETryLaunchPc.StepsLeft : ETryLaunchPc → Nat
  | ETryLaunchPc.AtTryPrepareLaunch => 2
  | ETryLaunchPc.AtLaunchInternal => 1
  | ETryLaunchPc.Returned _ => 0

/-! ### `FOversubscriptionScope` -/

/-- What the oversubscription scopes act on: the scheduler's oversubscription
counter and the calling thread's `thread_local` flag
`FOversubscriptionTls::bIsOversubscriptionAllowed`. -/
structure FOversubscriptionWorld where
  Oversubscription : Int
  bIsOversubscriptionAllowed : Bool
  deriving DecidableEq, Repr

/-- Modelled from the spec: `FScheduler::IncrementOversubscription` (defined
in `Scheduler.cpp`, which is missing) "maintains a counter of threads that are
busy-waiting": it adds one. -/
def FScheduler.IncrementOversubscription (w : FOversubscriptionWorld) : FOversubscriptionWorld :=
  { w with Oversubscription := w.Oversubscription + 1 }

/-- Modelled from the spec: `FScheduler::DecrementOversubscription` (defined
in `Scheduler.cpp`, which is missing) takes one off the counter. -/
def FScheduler.DecrementOversubscription (w : FOversubscriptionWorld) : FOversubscriptionWorld :=
  { w with Oversubscription := w.Oversubscription - 1 }

/-- `FOversubscriptionTls::IsOversubscriptionAllowed`. -/
def FOversubscriptionTls.IsOversubscriptionAllowed (w : FOversubscriptionWorld) : Bool :=
  w.bIsOversubscriptionAllowed

/-- The data members of `FOversubscriptionScope`.  `bCpuBeginEventEmitted`
only pairs the profiler's begin and end events (`CPUPROFILERTRACE_ENABLED`)
and is left out, together with those events. -/
structure FOversubscriptionScope where
  bIncrementOversubscriptionEmitted : Bool
  deriving DecidableEq, Repr

/-- The constructor `FOversubscriptionScope(bool bCondition)` (lines 294-310);
the member starts out `false`. -/
def FOversubscriptionScope.Construct (bCondition : Bool) (w : FOversubscriptionWorld) :
    FOversubscriptionScope × FOversubscriptionWorld :=
  if bCondition && FOversubscriptionTls.IsOversubscriptionAllowed w then
    ({ bIncrementOversubscriptionEmitted := true }, FScheduler.IncrementOversubscription w)
  else
    ({ bIncrementOversubscriptionEmitted := false }, w)

/-- The destructor `~FOversubscriptionScope()` (lines 312-326). -/
def FOversubscriptionScope.Destruct (Scope : FOversubscriptionScope)
    (w : FOversubscriptionWorld) : FOversubscriptionWorld :=
  if Scope.bIncrementOversubscriptionEmitted then FScheduler.DecrementOversubscription w else w

/-- The data member of `Private::FOversubscriptionAllowedScope`. -/
structure FOversubscriptionAllowedScope where
  bPreviousValue : Bool
  deriving DecidableEq, Repr

/-- The constructor `FOversubscriptionAllowedScope(bool)` (lines 274-278). -/
def FOversubscriptionAllowedScope.Construct (bIsOversubscriptionAllowed : Bool)
    (w : FOversubscriptionWorld) : FOversubscriptionAllowedScope × FOversubscriptionWorld :=
  ({ bPreviousValue := w.bIsOversubscriptionAllowed },
   { w with bIsOversubscriptionAllowed := bIsOversubscriptionAllowed })

/-- The destructor `~FOversubscriptionAllowedScope()` (lines 280-283). -/
def FOversubscriptionAllowedScope.Destruct (Scope : FOversubscriptionAllowedScope)
    (w : FOversubscriptionWorld) : FOversubscriptionWorld :=
  { w with bIsOversubscriptionAllowed := Scope.bPreviousValue }

/-- Straight-line code made of properly nested scope objects: a block
`{ FOversubscriptionScope S(bCondition); Body }` or
`{ FOversubscriptionAllowedScope S(b); Body }` followed by `Next`, or a change
of the thread's flag made by code whose lifetime is not nested in the program
(`FlagChanges`). -/
inductive FScopedCode
  | Done
  | OversubscriptionScope (bCondition : Bool) (Body Next : FScopedCode)
  | OversubscriptionAllowedScope (bIsOversubscriptionAllowed : Bool) (Body Next : FScopedCode)
  | FlagChanges (bIsOversubscriptionAllowed : Bool) (Next : FScopedCode)
  deriving Repr

/-- Running scoped code: each scope object is constructed on entering its
block and destroyed on leaving it. -/
def FScopedCode.Run : FScopedCode → FOversubscriptionWorld → FOversubscriptionWorld
  | FScopedCode.Done, w => w
  | FScopedCode.OversubscriptionScope bCondition Body Next, w =>
      Next.Run (((FOversubscriptionScope.Construct bCondition w).1).Destruct
        (Body.Run (FOversubscriptionScope.Construct bCondition w).2))
  | FScopedCode.OversubscriptionAllowedScope b Body Next, w =>
      Next.Run (((FOversubscriptionAllowedScope.Construct b w).1).Destruct
        (Body.Run (FOversubscriptionAllowedScope.Construct b w).2))
  | FScopedCode.FlagChanges b Next, w =>
      Next.Run { w with bIsOversubscriptionAllowed := b }

/-! ### Concrete instances used to exercise the theorems -/

/-- Externs over a world that is one task's state: `TryPrepareLaunch` is the
launch flag above, `LaunchInternal` moves the task on to `Running`, and
`BusyWaitInternal` returns with the task completed. -/
def ExampleExterns : FExterns ETaskState Unit where
  TryPrepareLaunch := fun _ s => FTask.TryPrepareLaunch s
  LaunchInternal := fun _ _ _ _ => ETaskState.Running
  BusyWaitInternal := fun _ _ _ => some ETaskState.Completed

/-- The predicate "the task is completed", which leaves the world as it is. -/
def ExampleCond (s : ETaskState) : Bool × ETaskState :=
  (decide (s = ETaskState.Completed), s)

end LowLevelTasks

namespace SimpleCellGrid

/-! ## SimpleCellGrid.h

Every conversion and every wrapping operation of the C++ code is written out.
The integer results studied here do not depend on the rounding of the
floating-point members. -/

/-- The constant `INDEX_NONE`. -/
def INDEX_NONE : Int := -1

/-- `TNumericLimits<int32>::Max()`, the largest `TArray<FCellType>::SizeType`. -/
def MaxSizeType : Nat := 2147483647

/-- The struct `FGridSize2D`: two `uint32`. -/
structure FGridSize2D where
  Width : Nat
  Height : Nat
  deriving DecidableEq, Repr

/-- The struct `FIntVector`: three `int32`. -/
structure FIntVector where
  X : Int
  Y : Int
  Z : Int
  deriving DecidableEq, Repr

/-- An axis-aligned box. -/
structure FBox where
  Min : FVector
  Max : FVector
  deriving DecidableEq

/-- The data members of `TSimpleCellGrid<CellType>`; the array `Cells` is the
list of its elements. -/
structure TSimpleCellGrid (CellType : Type) where
  GridCellSize : ℚ
  WorldBounds : FBox
  Origin : FVector
  BoundsSize : FVector
  GridSize : FGridSize2D
  Cells : List CellType

/-- The value of `FLT_MAX`. -/
def FLT_MAX : ℚ := 340282346638528859811704183484516925440

/-- The default constructor `TSimpleCellGrid()` (lines 41-47). -/
def TSimpleCellGrid.Construct (CellType : Type) : TSimpleCellGrid CellType :=
  { GridCellSize := 0
    WorldBounds := ⟨⟨0, 0, 0⟩, ⟨0, 0, 0⟩⟩
    Origin := ⟨FLT_MAX, FLT_MAX, FLT_MAX⟩
    BoundsSize := ⟨0, 0, 0⟩
    GridSize := ⟨0, 0⟩
    Cells := [] }

/-- `UpdateWorldBounds` (lines 116-119). -/
def TSimpleCellGrid.UpdateWorldBounds {CellType : Type} (g : TSimpleCellGrid CellType) :
    TSimpleCellGrid CellType :=
  { g with
    WorldBounds :=
      ⟨⟨g.Origin.X - 0, g.Origin.Y - 0, g.Origin.Z - g.BoundsSize.Z / 2⟩,
       ⟨g.Origin.X + g.BoundsSize.X, g.Origin.Y + g.BoundsSize.Y,
        g.Origin.Z + g.BoundsSize.Z / 2⟩⟩ }

/-- The local `TempCellCount` of `Init`: `GridSize.Width * GridSize.Height` is
a product of two `uint32`, computed in `uint32`, and only then widened to
`uint64` (line 97). -/
def TempCellCount (GridSize : FGridSize2D) : Nat :=
  (GridSize.Width * GridSize.Height) % 4294967296

/-- The local `CellCount` of `Init`:
`FMath::Min(TempCellCount, (uint64)TNumericLimits<SizeType>::Max())` (line 98). -/
def CellCount (GridSize : FGridSize2D) : Nat :=
  min (TempCellCount GridSize) MaxSizeType

/-- The condition of `ensureMsgf(CellCount == TempCellCount, "Grid width and
height are too big.")` (line 99); when it is false the failure is reported and
execution goes on. -/
def InitEnsure (GridSize : FGridSize2D) : Bool :=
  CellCount GridSize == TempCellCount GridSize

/-- `Init(InCellSize, InGridSize, InOrigin, VerticalBoundSize)` (lines 84-103):
the returned flag and the grid afterwards.  `Cells.AddDefaulted(CellCount)`
appends `CellCount` default-constructed cells.  `BoundsSize` and `WorldBounds`
are floating-point members: their products and sums are written without the
rounding of `float`, and no theorem reads them. -/
def TSimpleCellGrid.Init {CellType : Type} [Inhabited CellType] (g : TSimpleCellGrid CellType)
    (InCellSize : ℚ) (InGridSize : FGridSize2D) (InOrigin : FVector) (VerticalBoundSize : ℚ) :
    Bool × TSimpleCellGrid CellType :=
  if InCellSize < 0 ∨ InGridSize.Height = 0 ∨ InGridSize.Width = 0 ∨ VerticalBoundSize < 0 then
    (false, g)
  else
    let g1 : TSimpleCellGrid CellType :=
      { g with
        GridCellSize := InCellSize
        GridSize := InGridSize
        BoundsSize := ⟨InGridSize.Width * InCellSize, InGridSize.Height * InCellSize,
                       VerticalBoundSize⟩
        Origin := InOrigin }
    let g2 := g1.UpdateWorldBounds
    (true, { g2 with Cells := g2.Cells ++ List.replicate (CellCount g2.GridSize) default })

/-- `GetCellsCount` (lines 302-305): `Cells.Num()`. -/
def TSimpleCellGrid.GetCellsCount {CellType : Type} (g : TSimpleCellGrid CellType) : Int :=
  g.Cells.length

/-- `IsValidCoord(int32 LocationX, int32 LocationY)` (lines 131-134); the
`uint32` sizes are converted to `int32` before the comparison. -/
def TSimpleCellGrid.IsValidCoord {CellType : Type} (g : TSimpleCellGrid CellType)
    (LocationX LocationY : Int) : Bool :=
  decide (LocationX ≥ 0) && decide (LocationX < castInt32 g.GridSize.Width)
    && decide (LocationY ≥ 0) && decide (LocationY < castInt32 g.GridSize.Height)

/-- `GetCellIndexUnsafe(int32 LocationX, int32 LocationY)` (lines 194-197):
`(LocationX * GridSize.Height) + LocationY`.  The `int32` operands are
converted to `uint32`, product and sum are taken modulo `2^32`, and the result
is converted to the `int32` return type. -/
def TSimpleCellGrid.GetCellIndexUnsafe {CellType : Type} (g : TSimpleCellGrid CellType)
    (LocationX LocationY : Int) : Int :=
  castInt32
    ((((castUInt32 LocationX * g.GridSize.Height) % 4294967296 + castUInt32 LocationY)
        % 4294967296 : Nat) : Int)

/-- `GetCellIndex(int32 LocationX, int32 LocationY)` (lines 200-203). -/
def TSimpleCellGrid.GetCellIndex {CellType : Type} (g : TSimpleCellGrid CellType)
    (LocationX LocationY : Int) : Int :=
  if g.IsValidCoord LocationX LocationY then g.GetCellIndexUnsafe LocationX LocationY
  else INDEX_NONE

/-- Modelled from the spec: `FMath::Clamp<int32>` (defined in
`Math/UnrealMathUtility.h`, which is missing) clamps `X` to the range from
`MinValue` to `MaxValue`, "result is clamped to grid" in the words of
`SimpleCellGrid.h`; the engine computes it as `Max(Min(X, MaxValue), MinValue)`. -/
def Clamp (X MinValue MaxValue : Int) : Int :=
  max (min X MaxValue) MinValue

/-- `GetCellCoordsUnsafe(const FVector& WorldLocation)` (lines 147-153):
`FIntVector(C(WorldLocation.X, Origin.X), C(WorldLocation.Y, Origin.Y), 0)`,
where `C(Location, Origin)` is the floating-point expression
`IntCastChecked<int32>(FMath::TruncToInt((Location - Origin) / GridCellSize))`.
That expression (a subtraction, a division, a truncation and a checked cast)
is the parameter `CellOf`, applied to the location's coordinate, the origin's
coordinate and the cell size, so the first two coordinates of the result can
be any `int32`; the third is `0`. -/
def TSimpleCellGrid.GetCellCoordsUnsafe {CellType : Type} (g : TSimpleCellGrid CellType)
    (CellOf : ℚ → ℚ → ℚ → Int) (WorldLocation : FVector) : FIntVector :=
  { X := CellOf WorldLocation.X g.Origin.X g.GridCellSize
    Y := CellOf WorldLocation.Y g.Origin.Y g.GridCellSize
    Z := 0 }

/-- `GetCellCoords(const FVector& WorldLocation)` (lines 156-160).
`(int32)GridSize.Width - 1` is an `int32` subtraction. -/
def TSimpleCellGrid.GetCellCoords {CellType : Type} (g : TSimpleCellGrid CellType)
    (CellOf : ℚ → ℚ → ℚ → Int) (WorldLocation : FVector) : FIntVector :=
  let UnsafeCoords := g.GetCellCoordsUnsafe CellOf WorldLocation
  { X := Clamp UnsafeCoords.X 0 (castInt32 (castInt32 g.GridSize.Width - 1))
    Y := Clamp UnsafeCoords.Y 0 (castInt32 (castInt32 g.GridSize.Height - 1))
    Z := 0 }

/-- An instance of the floating-point expression of `GetCellCoordsUnsafe`,
exact for a whole-number coordinate when the origin is `0` and the cell size
`1`: the cell is the coordinate itself. -/
def WholeCellOf (Location _Origin _CellSize : ℚ) : Int :=
  Location.num

/-- The points of the grid: `0 <= X < Width` and `0 <= Y < Height`. -/
def InsideGrid (GridSize : FGridSize2D) (X Y : Int) : Prop :=
  0 ≤ X ∧ X < GridSize.Width ∧ 0 ≤ Y ∧ Y < GridSize.Height

/-- A grid that has the given size and no cells yet. -/
def GridOfSize (Width Height : Nat) : TSimpleCellGrid Unit :=
  { TSimpleCellGrid.Construct Unit with GridSize := ⟨Width, Height⟩ }

end SimpleCellGrid

namespace WorldLocations

/-! ## WorldLocations.h, WorldLocations.cpp

`FNetBitArray` and `TChunkedArray` are engine containers whose sources are
missing; they are maps from the index to the bit or element.  The C++ code
checks (`checkSlow`) that the object index it is given has valid info, which
keeps every access in range. -/

/-- `FVector::Zero()`. -/
def FVector.Zero : FVector := ⟨0, 0, 0⟩

/-- Modelled from the spec: `FMath::Clamp<double>` (defined in
`Math/UnrealMathUtility.h`, which is missing) clamps `X` to the range from
`MinValue` to `MaxValue`; the engine computes it as
`Max(Min(X, MaxValue), MinValue)`. -/
def Clamp (X MinValue MaxValue : ℚ) : ℚ :=
  max (min X MaxValue) MinValue

/-- Modelled from the spec: `FVector::BoundToBox(Min, Max)` (defined in
`Math/Vector.h`, which is missing) clamps each coordinate between the
corresponding coordinates of `Min` and `Max`: "All world positions will be
clamped to MinPos and MaxPos", in the words of `WorldLocations.h`. -/
def FVector.BoundToBox (Position Min Max : FVector) : FVector :=
  ⟨Clamp Position.X Min.X Max.X, Clamp Position.Y Min.Y Max.Y, Clamp Position.Z Min.Z Max.Z⟩

/-- Every coordinate of `a` is at most the same coordinate of `b`. -/
def FVector.AllLE (a b : FVector) : Prop :=
  a.X ≤ b.X ∧ a.Y ≤ b.Y ∧ a.Z ≤ b.Z

/-- Modelled from the spec: the class `FNetBitArray` (defined in
`Net/Core/NetBitArray.h`, which is missing) is an array of bits addressed by
an index ("Set bits indicate ...", in the words of `WorldLocations.h`); its
member functions below read, set and clear the bit at an index. -/
structure FNetBitArray where
  Bits : Nat → Bool

/-- `FNetBitArray::Init` and `SetNumBits` on a new array: all bits clear. -/
def FNetBitArray.Init : FNetBitArray := ⟨fun _ => false⟩

/-- `FNetBitArray::GetBit`. -/
def FNetBitArray.GetBit (a : FNetBitArray) (Index : Nat) : Bool := a.Bits Index

/-- `FNetBitArray::IsBitSet`. -/
def FNetBitArray.IsBitSet (a : FNetBitArray) (Index : Nat) : Bool := a.Bits Index

/-- `FNetBitArray::SetBitValue`. -/
def FNetBitArray.SetBitValue (a : FNetBitArray) (Index : Nat) (bValue : Bool) : FNetBitArray :=
  ⟨fun i => if i = Index then bValue else a.Bits i⟩

/-- `FNetBitArray::SetBit`. -/
def FNetBitArray.SetBit (a : FNetBitArray) (Index : Nat) : FNetBitArray :=
  a.SetBitValue Index true

/-- `FNetBitArray::ClearBit`. -/
def FNetBitArray.ClearBit (a : FNetBitArray) (Index : Nat) : FNetBitArray :=
  a.SetBitValue Index false

/-- `FNetBitArray::ClearAllBits`. -/
def FNetBitArray.ClearAllBits (_a : FNetBitArray) : FNetBitArray := ⟨fun _ => false⟩

/-- The class `UWorldLocationsConfig` (WorldLocations.h, lines 20-32). -/
structure UWorldLocationsConfig where
  MinPos : FVector
  MaxPos : FVector

/-- The default values of `UWorldLocationsConfig`: `-0.5f * 2097152.0f` and
`+0.5f * 2097152.0f` in each coordinate. -/
def UWorldLocationsConfig.Default : UWorldLocationsConfig :=
  { MinPos := ⟨-1048576, -1048576, -1048576⟩
    MaxPos := ⟨1048576, 1048576, 1048576⟩ }

/-- The struct `FWorldLocations::FObjectInfo`. -/
structure FObjectInfo where
  WorldLocation : FVector
  CullDistance : ℚ
  deriving DecidableEq

/-- The data members of `FWorldLocations`. -/
structure FWorldLocations where
  ValidInfoIndexes : FNetBitArray
  ObjectsWithDirtyInfo : FNetBitArray
  ObjectsRequiringFrequentWorldLocationUpdate : FNetBitArray
  StoredObjectInfo : Nat → FObjectInfo
  MinWorldPos : FVector
  MaxWorldPos : FVector

/-- `FWorldLocations::Init` (WorldLocations.cpp, lines 12-20) on a new object. -/
def FWorldLocations.Init (Config : UWorldLocationsConfig) : FWorldLocations :=
  { ValidInfoIndexes := FNetBitArray.Init
    ObjectsWithDirtyInfo := FNetBitArray.Init
    ObjectsRequiringFrequentWorldLocationUpdate := FNetBitArray.Init
    StoredObjectInfo := fun _ => ⟨FVector.Zero, 0⟩
    MinWorldPos := Config.MinPos
    MaxWorldPos := Config.MaxPos }

/-- `GetWorldMinPos`. -/
def FWorldLocations.GetWorldMinPos (self : FWorldLocations) : FVector := self.MinWorldPos

/-- `GetWorldMaxPos`. -/
def FWorldLocations.GetWorldMaxPos (self : FWorldLocations) : FVector := self.MaxWorldPos

/-- `FWorldLocations::ClampPositionToBoundary` (lines 83-86). -/
def FWorldLocations.ClampPositionToBoundary (self : FWorldLocations) (Position : FVector) :
    FVector :=
  FVector.BoundToBox Position self.GetWorldMinPos self.GetWorldMaxPos

/-- `FWorldLocations::HasInfoForObject`. -/
def FWorldLocations.HasInfoForObject (self : FWorldLocations) (ObjectIndex : Nat) : Bool :=
  self.ValidInfoIndexes.IsBitSet ObjectIndex

/-- `FWorldLocations::GetWorldLocation` (WorldLocations.h, lines 140-150). -/
def FWorldLocations.GetWorldLocation (self : FWorldLocations) (ObjectIndex : Nat) : FVector :=
  if self.ValidInfoIndexes.IsBitSet ObjectIndex then
    (self.StoredObjectInfo ObjectIndex).WorldLocation
  else
    FVector.Zero

/-- `FWorldLocations::InitObjectInfoCache` (lines 29-47). -/
def FWorldLocations.InitObjectInfoCache (self : FWorldLocations) (ObjectIndex : Nat) :
    FWorldLocations :=
  if self.ValidInfoIndexes.IsBitSet ObjectIndex then
    self
  else
    { self with
      ValidInfoIndexes := self.ValidInfoIndexes.SetBit ObjectIndex
      StoredObjectInfo := fun i =>
        if i = ObjectIndex then ⟨FVector.Zero, 0⟩ else self.StoredObjectInfo i }

/-- `FWorldLocations::SetObjectInfo` (lines 56-65). -/
def FWorldLocations.SetObjectInfo (self : FWorldLocations) (ObjectIndex : Nat)
    (ObjectInfo : FObjectInfo) : FWorldLocations :=
  let TargetObjectInfo := self.StoredObjectInfo ObjectIndex
  let bHasInfoChanged :=
    self.ObjectsWithDirtyInfo.GetBit ObjectIndex
      || decide (TargetObjectInfo.WorldLocation ≠ ObjectInfo.WorldLocation)
      || decide (TargetObjectInfo.CullDistance ≠ ObjectInfo.CullDistance)
  let NewObjectInfo : FObjectInfo :=
    { ObjectInfo with WorldLocation := self.ClampPositionToBoundary ObjectInfo.WorldLocation }
  { self with
    StoredObjectInfo := fun i => if i = ObjectIndex then NewObjectInfo else self.StoredObjectInfo i
    ObjectsWithDirtyInfo := self.ObjectsWithDirtyInfo.SetBitValue ObjectIndex bHasInfoChanged }

/-- `FWorldLocations::UpdateWorldLocation` (lines 67-76).  `TargetWorldLocation`
is a reference to the stored location: the assignment on line 72 writes the
stored location, and the comparison on line 73 reads it back. -/
def FWorldLocations.UpdateWorldLocation (self : FWorldLocations) (ObjectIndex : Nat)
    (WorldLocation : FVector) : FWorldLocations :=
  let InBoundsWorldLocation := self.ClampPositionToBoundary WorldLocation
  let self1 : FWorldLocations :=
    { self with
      StoredObjectInfo := fun i =>
        if i = ObjectIndex then
          { self.StoredObjectInfo ObjectIndex with WorldLocation := InBoundsWorldLocation }
        else self.StoredObjectInfo i }
  let bHasInfoChanged :=
    self1.ObjectsWithDirtyInfo.GetBit ObjectIndex
      || decide ((self1.StoredObjectInfo ObjectIndex).WorldLocation ≠ InBoundsWorldLocation)
  { self1 with
    ObjectsWithDirtyInfo := self1.ObjectsWithDirtyInfo.SetBitValue ObjectIndex bHasInfoChanged }

/-- `FWorldLocations::ResetObjectsWithDirtyInfo` (lines 78-81). -/
def FWorldLocations.ResetObjectsWithDirtyInfo (self : FWorldLocations) : FWorldLocations :=
  { self with ObjectsWithDirtyInfo := self.ObjectsWithDirtyInfo.ClearAllBits }

/-- World locations with the default boundary in which object 3 has just got
its info cache: valid, stored at the origin, not dirty. -/
def ExampleLocations : FWorldLocations :=
  (FWorldLocations.Init UWorldLocationsConfig.Default).InitObjectInfoCache 3

end WorldLocations

namespace TraceChannel

/-! ## Channel.cpp

A channel name is a C string: the list of its characters before the
terminating NUL, each an `ANSICHAR` already promoted to `int` (so a value from
`-128` to `127` where `char` is signed and from `0` to `255` where it is not).
Reading the string at its length gives the terminator `0`. -/

/-- The name `"Channel"`. -/
def ChannelSuffix : List Int := [67, 104, 97, 110, 110, 101, 108]

/-- The characters of a string literal. -/
def Name (s : String) : List Int :=
  s.toList.map fun c => (c.toNat : Int)

/-- The loop of `GetChannelHash` (lines 56-60), run `Length` times from the
character `Input` points to:
`Result ^= *Input | 0x20; Result *= 0x01000193;` in `uint32`. -/
def GetChannelHashLoop : List Int → Nat → Nat → Nat
  | _, 0, Result => Result
  | [], Length + 1, Result =>
      GetChannelHashLoop [] Length
        (((Result ^^^ castUInt32 (Int.lor 0 32)) * 16777619) % 4294967296)
  | c :: Input, Length + 1, Result =>
      GetChannelHashLoop Input Length
        (((Result ^^^ castUInt32 (Int.lor c 32)) * 16777619) % 4294967296)

/-- `GetChannelHash(const ANSICHAR* Input, int32 Length)` (lines 46-62).  The
loop counts `Length` down to zero; the model runs it for a `Length` that is not
negative. -/
def GetChannelHash (Input : List Int) (Length : Int) : Nat :=
  let Length1 : Int :=
    if Length > 0 ∧ Int.lor (Input.getD (Length - 1).toNat 0) 32 = 115 then Length - 1
    else Length
  GetChannelHashLoop Input Length1.toNat 2166136261

/-- `GetChannelNameLength(const ANSICHAR* ChannelName)` (lines 65-78):
`uint32(strlen(ChannelName))`, less 7 when that is more than 7 and
`strcmp(ChannelName + Len - 7, "Channel") == 0`. -/
def GetChannelNameLength (ChannelName : List Int) : Nat :=
  let Len : Nat := ChannelName.length % 4294967296
  if Len > 7 ∧ ChannelName.drop (Len - 7) = ChannelSuffix then Len - 7 else Len

/-- The member `FChannel::Name`. -/
structure FChannelName where
  Ptr : List Int
  Len : Nat
  Hash : Nat
  deriving DecidableEq, Repr

/-- The data members of `FChannel` read here; `Next` is the position in the
list that holds the channel. -/
structure FChannel where
  Name : FChannelName
  Enabled : Int
  deriving DecidableEq, Repr

/-- The channel id a name gets, as `FChannel::Setup` (lines 144-145) and
`FChannel::FindChannel` (lines 232-233) compute it: `GetChannelHash` over the
first `GetChannelNameLength` characters; the `uint32` length is converted to
the `int32` parameter. -/
def ChannelId (ChannelName : List Int) : Nat :=
  GetChannelHash ChannelName (castInt32 (GetChannelNameLength ChannelName))

/-- The globals of `Channel.cpp`: the two channel lists `GNewChannelList` and
`GHeadChannel`, each the list of the channels linked through `Next`, and the
flag `GChannelsInitialized`. -/
structure FChannelLists where
  GNewChannelList : List FChannel
  GHeadChannel : List FChannel
  GChannelsInitialized : Bool

/-- `FChannel::Setup` (lines 139-165) for a new channel object (`Enabled` is
zero): the channel is named, linked at the head of `GNewChannelList`, and
disabled when the channels have been initialized already.  The member `Args`
is not read by the functions embedded here and is left out. -/
def FChannel.Setup (Lists : FChannelLists) (InChannelName : List Int) : FChannelLists :=
  let Len := GetChannelNameLength InChannelName
  { Lists with
    GNewChannelList :=
      { Name := { Ptr := InChannelName, Len := Len,
                  Hash := GetChannelHash InChannelName (castInt32 Len) },
        Enabled := if Lists.GChannelsInitialized then -1 else 0 } :: Lists.GNewChannelList }

/-- `FChannel::FindChannel(const ANSICHAR* ChannelName)` (lines 228-252): the
first channel of `GNewChannelList`, then of `GHeadChannel`, whose hash is the
name's; `none` for `nullptr`. -/
def FChannel.FindChannel (Lists : FChannelLists) (ChannelName : List Int) : Option FChannel :=
  let ChannelNameLen := GetChannelNameLength ChannelName
  let ChannelNameHash := GetChannelHash ChannelName (castInt32 ChannelNameLen)
  (Lists.GNewChannelList ++ Lists.GHeadChannel).find? fun Channel =>
    Channel.Name.Hash == ChannelNameHash

/-- The name ends in `'s'` or `'S'`. -/
def EndsInS (ChannelName : List Int) : Prop :=
  ChannelName.getLast? = some 115 ∨ ChannelName.getLast? = some 83

/-- The name is longer than 7 characters and ends in `"Channel"`. -/
def HasChannelSuffix (ChannelName : List Int) : Prop :=
  7 < ChannelName.length ∧ ChannelSuffix <:+ ChannelName

end TraceChannel

namespace AsyncFileHandle

/-! ## AsyncFileHandle.h

The class `IAsyncReadRequest`.  Pointers are addresses, `nullptr` is zero.
The pure virtual functions `WaitCompletionImpl`, `CancelImpl` and
`ReleaseMemoryOwnershipImpl` belong to the implementations; what an
implementation does to the members of the base class is a list of
`FImplAction`: it stores a value in the union `Size`/`Memory`, sets
`bCompleteSync`, or calls one of the protected functions `SetDataComplete`,
`SetAllComplete`, `SetComplete`. -/

/-- The null pointer. -/
def nullptr : Int := 0

/-- The data members of `IAsyncReadRequest` (lines 33-44).  The anonymous
union of `PTRINT Size` and `uint8* Memory` is one word, `SizeOrMemory`;
`bCallback` says whether `Callback` is bound.  `CallbackCalls` records the
argument `bWasCancelled` of every call made to `Callback`. -/
structure IAsyncReadRequest where
  SizeOrMemory : Int
  bCallback : Bool
  bDataIsReady : Bool
  bCompleteAndCallbackCalled : Bool
  bCompleteSync : Bool
  bCanceled : Bool
  bSizeRequest : Bool
  bUserSuppliedMemory : Bool
  CallbackCalls : List Bool
  deriving DecidableEq, Repr

/-- The union member `Size`. -/
def IAsyncReadRequest.Size (self : IAsyncReadRequest) : Int := self.SizeOrMemory

/-- The union member `Memory`. -/
def IAsyncReadRequest.Memory (self : IAsyncReadRequest) : Int := self.SizeOrMemory

/-- Modelled from the spec: the macro `check(expr)` (defined in
`Misc/AssertionMacros.h`, which is missing) stops the program when `expr` is
false in a build with `DO_CHECK`, and does nothing in a build without; the
result says whether execution goes on. -/
def check (DO_CHECK : Bool) (Expr : Bool) : Bool :=
  !DO_CHECK || Expr

/-- The constructor `IAsyncReadRequest(InCallback, bInSizeRequest,
UserSuppliedMemory)` (lines 47-70).  `InCallback` is `none` for a null pointer
and `some b` for a pointer to a function object that is bound when `b`.  The
result is `none` when a `check` stops the program. -/
def IAsyncReadRequest.Construct (DO_CHECK : Bool) (InCallback : Option Bool)
    (bInSizeRequest : Bool) (UserSuppliedMemory : Int) : Option IAsyncReadRequest :=
  let bUserSuppliedMemory : Bool := decide (UserSuppliedMemory ≠ nullptr)
  let self : IAsyncReadRequest :=
    { SizeOrMemory := 0
      bCallback := match InCallback with
        | some b => b
        | none => false
      bDataIsReady := false
      bCompleteAndCallbackCalled := false
      bCompleteSync := false
      bCanceled := false
      bSizeRequest := bInSizeRequest
      bUserSuppliedMemory := bUserSuppliedMemory
      CallbackCalls := [] }
  if self.bSizeRequest then
    if check DO_CHECK (!decide (UserSuppliedMemory ≠ nullptr) && !self.bUserSuppliedMemory) then
      some { self with SizeOrMemory := -1 }
    else none
  else
    if check DO_CHECK
        (decide (decide (UserSuppliedMemory ≠ nullptr) = self.bUserSuppliedMemory)) then
      some { self with SizeOrMemory := UserSuppliedMemory }
    else none

/-- `SetDataComplete` (lines 186-195). -/
def IAsyncReadRequest.SetDataComplete (self : IAsyncReadRequest) : IAsyncReadRequest :=
  let self1 := { self with bDataIsReady := true }
  if self1.bCallback then
    { self1 with CallbackCalls := self1.CallbackCalls ++ [self1.bCanceled] }
  else self1

/-- `SetAllComplete` (lines 197-201). -/
def IAsyncReadRequest.SetAllComplete (self : IAsyncReadRequest) : IAsyncReadRequest :=
  { self with bCompleteAndCallbackCalled := true }

/-- `SetComplete` (lines 203-207). -/
def IAsyncReadRequest.SetComplete (self : IAsyncReadRequest) : IAsyncReadRequest :=
  self.SetDataComplete.SetAllComplete

/-- What an implementation of the request does to the members of
`IAsyncReadRequest`. -/
inductive FImplAction
  | Store (Value : Int)
  | StoreCompleteSync (bValue : Bool)
  | SetDataComplete
  | SetAllComplete
  | SetComplete
  deriving DecidableEq, Repr

/-- One action of the implementation. -/
def FImplAction.Apply (self : IAsyncReadRequest) : FImplAction → IAsyncReadRequest
  | FImplAction.Store Value => { self with SizeOrMemory := Value }
  | FImplAction.StoreCompleteSync bValue => { self with bCompleteSync := bValue }
  | FImplAction.SetDataComplete => self.SetDataComplete
  | FImplAction.SetAllComplete => self.SetAllComplete
  | FImplAction.SetComplete => self.SetComplete

/-- The body of a virtual function of the implementation: its actions in
order. -/
def IAsyncReadRequest.RunImpl (self : IAsyncReadRequest) (Impl : List FImplAction) :
    IAsyncReadRequest :=
  Impl.foldl FImplAction.Apply self

/-- `PollCompletion` (lines 86-89). -/
def IAsyncReadRequest.PollCompletion (self : IAsyncReadRequest) : Bool :=
  self.bCompleteAndCallbackCalled

/-- `Cancel` (lines 120-132); `CancelImpl` is the implementation's override. -/
def IAsyncReadRequest.Cancel (self : IAsyncReadRequest) (CancelImpl : List FImplAction) :
    IAsyncReadRequest :=
  if !self.bCanceled then
    let self1 := { self with bCanceled := true, bDataIsReady := true }
    if !self1.PollCompletion then self1.RunImpl CancelImpl else self1
  else self

/-- `GetSizeResults` (lines 138-142); `none` when the `check` stops the
program. -/
def IAsyncReadRequest.GetSizeResults (DO_CHECK : Bool) (self : IAsyncReadRequest) :
    Option Int :=
  if check DO_CHECK (self.bDataIsReady && self.bSizeRequest) then
    some (if self.bCanceled then -1 else self.Size)
  else none

/-- `GetReadResults` (lines 148-166): the returned pointer and the request
afterwards; `none` when the `check` stops the program.
`ReleaseMemoryOwnershipImpl` is the implementation's override. -/
def IAsyncReadRequest.GetReadResults (DO_CHECK : Bool)
    (ReleaseMemoryOwnershipImpl : List FImplAction) (self : IAsyncReadRequest) :
    Option (Int × IAsyncReadRequest) :=
  if check DO_CHECK (self.bDataIsReady && !self.bSizeRequest) then
    let Result := self.Memory
    if self.bCanceled && decide (Result ≠ nullptr) then
      some (nullptr, self)
    else
      let self1 :=
        if decide (self.Memory ≠ nullptr) && !self.bUserSuppliedMemory then
          self.RunImpl ReleaseMemoryOwnershipImpl
        else self
      some (Result, { self1 with SizeOrMemory := nullptr })
  else none

/-- What happens to a request between its construction and the reading of its
result: the implementation acts on it (from `WaitCompletionImpl` or from
another thread), or the owner calls `Cancel`. -/
inductive FEvent
  | Impl (Action : FImplAction)
  | Cancel (CancelImpl : List FImplAction)
  deriving DecidableEq, Repr

/-- One event. -/
def FEvent.Apply (self : IAsyncReadRequest) : FEvent → IAsyncReadRequest
  | FEvent.Impl Action => Action.Apply self
  | FEvent.Cancel CancelImpl => self.Cancel CancelImpl

/-- A history of events, oldest first. -/
def IAsyncReadRequest.Run (self : IAsyncReadRequest) (History : List FEvent) :
    IAsyncReadRequest :=
  History.foldl FEvent.Apply self

/-- A size request as the constructor leaves it: no callback, nothing ready,
not canceled, `Size` is `-1`. -/
def FreshSizeRequest : IAsyncReadRequest :=
  { SizeOrMemory := -1, bCallback := false, bDataIsReady := false,
    bCompleteAndCallbackCalled := false, bCompleteSync := false, bCanceled := false,
    bSizeRequest := true, bUserSuppliedMemory := false, CallbackCalls := [] }

/-- A read request without user-supplied memory as the constructor leaves
it: `Memory` is null. -/
def FreshReadRequest : IAsyncReadRequest :=
  { SizeOrMemory := nullptr, bCallback := false, bDataIsReady := false,
    bCompleteAndCallbackCalled := false, bCompleteSync := false, bCanceled := false,
    bSizeRequest := false, bUserSuppliedMemory := false, CallbackCalls := [] }

end AsyncFileHandle

namespace ToonOutline

/-! ## ToonOutlinePassRendering.h, ToonOutlinePassRendering.cpp

The engine types the pass works on (`FMaterial`, `FMeshBatch`, the render
state, the shader bindings) are declared in headers that are missing; each is
a record of what the code here reads from it or writes to it.  Calls to
functions of the base class `FMeshPassProcessor` are recorded in the
processor. -/

/-- Modelled from the spec: the enum `EMaterialShadingModel` (declared in
`Engine/EngineTypes.h`, which is missing) with this repository's enumerator
`MSM_Toon`, "the Toon shading model"; `MSM_Other` stands for every other
enumerator. -/
inductive EMaterialShadingModel
  | MSM_Toon
  | MSM_Other (Value : Nat)
  deriving DecidableEq, Repr

/-- Modelled from the spec: the enum `EBlendMode` (declared in
`Engine/EngineTypes.h`, which is missing) with its enumerator `BLEND_Opaque`;
`BLEND_Other` stands for every other enumerator. -/
inductive EBlendMode
  | BLEND_Opaque
  | BLEND_Other (Value : Nat)
  deriving DecidableEq, Repr

/-- Modelled from the spec: the enum `ERasterizerFillMode` (declared in
`RHIDefinitions.h`, which is missing), of which the pass names `FM_Solid`,
"solid fill mode". -/
inductive ERasterizerFillMode
  | FM_Point
  | FM_Wireframe
  | FM_Solid
  deriving DecidableEq, Repr

/-- Modelled from the spec: the enum `ERasterizerCullMode` (declared in
`RHIDefinitions.h`, which is missing), of which the pass names `CM_CCW`. -/
inductive ERasterizerCullMode
  | CM_None
  | CM_CW
  | CM_CCW
  deriving DecidableEq, Repr

/-- The struct `FLinearColor`: four `float`. -/
structure FLinearColor where
  R : ℚ
  G : ℚ
  B : ℚ
  A : ℚ
  deriving DecidableEq

/-- The struct `FVector3f`: three `float`. -/
structure FVector3f where
  X : ℚ
  Y : ℚ
  Z : ℚ
  deriving DecidableEq

/-- What the pass reads from an `FMaterial`: whether
`GetRenderingThreadShaderMap()` is non-null, the shading models of
`GetShadingModels()`, `RenderToonOutline()`, `GetBlendMode()`, the vertex
factory types for which `TryGetShaders` finds the outline vertex and pixel
shader, `GetOutlineColor()` and `GetOutlineWidth()`. -/
structure FMaterial where
  bRenderingThreadShaderMap : Bool
  ShadingModels : List EMaterialShadingModel
  bRenderToonOutline : Bool
  BlendMode : EBlendMode
  VertexFactoryTypesWithShaders : List String
  OutlineColor : FLinearColor
  OutlineWidth : ℚ
  deriving DecidableEq

/-- `FMaterialShadingModelField::HasShadingModel`. -/
def FMaterial.HasShadingModel (self : FMaterial) (Model : EMaterialShadingModel) : Bool :=
  decide (Model ∈ self.ShadingModels)

/-- `FMaterial::TryGetShaders` for the two outline shader types and a vertex
factory type: whether the shaders are found. -/
def FMaterial.TryGetShaders (self : FMaterial) (VertexFactoryType : String) : Bool :=
  decide (VertexFactoryType ∈ self.VertexFactoryTypesWithShaders)

/-- What the pass reads from an `FMeshBatch`: the material that
`MaterialRenderProxy->GetMaterialNoFallback(FeatureLevel)` returns (`none`
for `nullptr`; the proxy itself is not null) and the name of the type of
`VertexFactory`. -/
structure FMeshBatch where
  MaterialNoFallback : Option FMaterial
  VertexFactoryType : String
  deriving DecidableEq

/-- The depth-stencil states the file names. -/
inductive EDepthStencilState
  | Null
  | NoWrite_DepthNearOrEqual
  | Write_LessEqual
  | Write_GreaterEqual_NoStencil
  deriving DecidableEq, Repr

/-- The parts of `FMeshPassProcessorRenderState` the pass sets. -/
structure FMeshPassProcessorRenderState where
  DepthStencilState : EDepthStencilState
  bBlendState : Bool
  StencilRef : Nat
  deriving DecidableEq, Repr

/-- A recorded call of `FToonOutlineMeshPassProcessor::Process`. -/
structure FProcessCall where
  BatchElementMask : Nat
  StaticMeshId : Int
  MeshFillMode : ERasterizerFillMode
  MeshCullMode : ERasterizerCullMode
  deriving DecidableEq, Repr

/-- A recorded call of `FMeshPassProcessor::BuildMeshDrawCommands`, which
builds the draw commands of a mesh batch. -/
structure FBuildMeshDrawCommandsCall where
  BatchElementMask : Nat
  DrawRenderState : FMeshPassProcessorRenderState
  MeshFillMode : ERasterizerFillMode
  MeshCullMode : ERasterizerCullMode
  deriving DecidableEq, Repr

/-- The class `FToonOutlineMeshPassProcessor`: its member
`PassDrawRenderState`, and the calls of `Process` and of
`BuildMeshDrawCommands` made so far, together with the number of
"Shader Not Found!" warnings logged. -/
structure FToonOutlineMeshPassProcessor where
  PassDrawRenderState : FMeshPassProcessorRenderState
  ProcessCalls : List FProcessCall
  BuildMeshDrawCommandsCalls : List FBuildMeshDrawCommandsCall
  Warnings : Nat
  deriving DecidableEq, Repr

/-- The constructor of `FToonOutlineMeshPassProcessor`
(ToonOutlinePassRendering.cpp, lines 13-29). -/
def FToonOutlineMeshPassProcessor.Construct
    (InPassDrawRenderState : FMeshPassProcessorRenderState) : FToonOutlineMeshPassProcessor :=
  let s1 : FMeshPassProcessorRenderState :=
    if InPassDrawRenderState.DepthStencilState = EDepthStencilState.Null then
      { InPassDrawRenderState with
        DepthStencilState := EDepthStencilState.NoWrite_DepthNearOrEqual }
    else InPassDrawRenderState
  let s2 : FMeshPassProcessorRenderState :=
    if s1.bBlendState = false then { s1 with bBlendState := true } else s1
  { PassDrawRenderState := s2, ProcessCalls := [], BuildMeshDrawCommandsCalls := [],
    Warnings := 0 }

/-- `FToonOutlineMeshPassProcessor::Process` (lines 65-132): the returned flag
and the processor afterwards.  The primitive scene proxy, the shader element
data and the sort key are handed on to `BuildMeshDrawCommands` as they are and
are left out. -/
def FToonOutlineMeshPassProcessor.Process (self : FToonOutlineMeshPassProcessor)
    (MeshBatch : FMeshBatch) (BatchElementMask : Nat) (StaticMeshId : Int)
    (MaterialResource : FMaterial)
    (MeshFillMode : ERasterizerFillMode) (MeshCullMode : ERasterizerCullMode) :
    Bool × FToonOutlineMeshPassProcessor :=
  let self1 : FToonOutlineMeshPassProcessor :=
    { self with
      ProcessCalls :=
        self.ProcessCalls ++ [⟨BatchElementMask, StaticMeshId, MeshFillMode, MeshCullMode⟩] }
  if !MaterialResource.TryGetShaders MeshBatch.VertexFactoryType then
    (false, { self1 with Warnings := self1.Warnings + 1 })
  else
    let State : FMeshPassProcessorRenderState :=
      { self1.PassDrawRenderState with
        DepthStencilState := EDepthStencilState.Write_GreaterEqual_NoStencil
        StencilRef := 0 }
    (true,
     { self1 with
       PassDrawRenderState := State
       BuildMeshDrawCommandsCalls :=
         self1.BuildMeshDrawCommandsCalls
           ++ [⟨BatchElementMask, State, MeshFillMode, MeshCullMode⟩] })

/-- `FToonOutlineMeshPassProcessor::AddMeshBatch` (lines 31-63). -/
def FToonOutlineMeshPassProcessor.AddMeshBatch (self : FToonOutlineMeshPassProcessor)
    (MeshBatch : FMeshBatch) (BatchElementMask : Nat) (StaticMeshId : Int) :
    FToonOutlineMeshPassProcessor :=
  match MeshBatch.MaterialNoFallback with
  | some Material =>
      if Material.bRenderingThreadShaderMap then
        if Material.HasShadingModel EMaterialShadingModel.MSM_Toon
            && Material.bRenderToonOutline then
          if Material.BlendMode = EBlendMode.BLEND_Opaque then
            (self.Process MeshBatch BatchElementMask StaticMeshId Material
              ERasterizerFillMode.FM_Solid ERasterizerCullMode.CM_CCW).2
          else self
        else self
      else self
  | none => self

/-- A value bound to a shader parameter. -/
inductive FShaderValue
  | Float (Value : ℚ)
  | Vector3 (Value : FVector3f)
  deriving DecidableEq

/-- One entry of `FMeshDrawSingleShaderBindings`: the shader parameter, by the
name it is bound with, and the value `ShaderBindings.Add` gave it. -/
structure FShaderBinding where
  Parameter : String
  Value : FShaderValue
  deriving DecidableEq

/-- `FToonOutlineVS::GetShaderBindings` (ToonOutlinePassRendering.h, lines
72-87).  `Base` is `FMeshMaterialShader::GetShaderBindings`, whose source is
missing. -/
def FToonOutlineVS.GetShaderBindings (Base : List FShaderBinding → List FShaderBinding)
    (Material : FMaterial) (ShaderBindings : List FShaderBinding) : List FShaderBinding :=
  let OutlineWidthFromMat := Material.OutlineWidth
  Base ShaderBindings ++ [⟨"OutlineWidth", FShaderValue.Float OutlineWidthFromMat⟩]

/-- `FToonOutlinePS::GetShaderBindings` (ToonOutlinePassRendering.h, lines
124-141): `FVector3f Color(OutlineColorFromMat.R, OutlineColorFromMat.G,
OutlineColorFromMat.G)`.  `Base` is `FMeshMaterialShader::GetShaderBindings`,
whose source is missing. -/
def FToonOutlinePS.GetShaderBindings (Base : List FShaderBinding → List FShaderBinding)
    (Material : FMaterial) (ShaderBindings : List FShaderBinding) : List FShaderBinding :=
  let OutlineColorFromMat := Material.OutlineColor
  let Color : FVector3f := ⟨OutlineColorFromMat.R, OutlineColorFromMat.G, OutlineColorFromMat.G⟩
  Base ShaderBindings ++ [⟨"OutlineColor", FShaderValue.Vector3 Color⟩]

/-- The conditions under which `AddMeshBatch` goes on to `Process`: the
batch's material is non-null, has a rendering-thread shader map, its shading
models include `MSM_Toon`, `RenderToonOutline()` is true and its blend mode is
`BLEND_Opaque`. -/
def InToonOutlinePass (MeshBatch : FMeshBatch) : Prop :=
  ∃ Material, MeshBatch.MaterialNoFallback = some Material
    ∧ Material.bRenderingThreadShaderMap = true
    ∧ EMaterialShadingModel.MSM_Toon ∈ Material.ShadingModels
    ∧ Material.bRenderToonOutline = true
    ∧ Material.BlendMode = EBlendMode.BLEND_Opaque

/-- An opaque material with the Toon shading model, toon outline enabled and a
blue outline colour, whose outline shaders exist for `FLocalVertexFactory`
only. -/
def ExampleToonMaterial : FMaterial :=
  { bRenderingThreadShaderMap := true
    ShadingModels := [EMaterialShadingModel.MSM_Toon]
    bRenderToonOutline := true
    BlendMode := EBlendMode.BLEND_Opaque
    VertexFactoryTypesWithShaders := ["FLocalVertexFactory"]
    OutlineColor := ⟨0, 0, 1, 1⟩
    OutlineWidth := 2 }

/-- A processor as `CreateToonOutLinePassProcessor` makes it (lines 136-158). -/
def ExampleProcessor : FToonOutlineMeshPassProcessor :=
  FToonOutlineMeshPassProcessor.Construct
    { DepthStencilState := EDepthStencilState.Write_LessEqual, bBlendState := false,
      StencilRef := 0 }

end ToonOutline

/-! # Theorems -/

theorem castInt32_of_le (n : Nat) (h : n ≤ 2147483647) : castInt32 (n : Int) = n := by
  unfold castInt32
  omega

theorem castUInt32_of_nat (n : Nat) (h : n ≤ 2147483647) : castUInt32 (n : Int) = n := by
  unfold castUInt32
  omega

namespace LowLevelTasks

/-- C1. `FScheduler::TryLaunch` returns exactly what `Task.TryPrepareLaunch()`
returned; when that is `true`, `LaunchInternal(Task, QueuePreference,
bWakeUpWorker)` is called exactly once (one call is appended to the call log
and the world is the one `LaunchInternal` produced from the world left by
`TryPrepareLaunch`); when it is `false` no call is made and the world is the
one `TryPrepareLaunch` left. -/
theorem TryLaunch_iff_TryPrepareLaunch {σ Task : Type} (E : FExterns σ Task) (T : Task)
    (QueuePreference : EQueuePreference) (bWakeUpWorker : Bool) (s : FState σ Task) :
    (FScheduler.TryLaunch E T QueuePreference bWakeUpWorker s).1
        = (E.TryPrepareLaunch T s.World).1
    ∧ ((E.TryPrepareLaunch T s.World).1 = true →
        (FScheduler.TryLaunch E T QueuePreference bWakeUpWorker s).2.Calls
            = s.Calls ++ [FCall.LaunchInternal T QueuePreference bWakeUpWorker]
        ∧ (FScheduler.TryLaunch E T QueuePreference bWakeUpWorker s).2.World
            = E.LaunchInternal T QueuePreference bWakeUpWorker (E.TryPrepareLaunch T s.World).2)
    ∧ ((E.TryPrepareLaunch T s.World).1 = false →
        (FScheduler.TryLaunch E T QueuePreference bWakeUpWorker s).2.Calls = s.Calls
        ∧ (FScheduler.TryLaunch E T QueuePreference bWakeUpWorker s).2.World
            = (E.TryPrepareLaunch T s.World).2) := by
  unfold FScheduler.TryLaunch
  rcases h : E.TryPrepareLaunch T s.World with ⟨b, w⟩
  cases b <;> simp

/-- C1, exercised: launching an unscheduled task returns `true` and calls
`LaunchInternal` once; launching it again returns `false` and calls nothing. -/
theorem TryLaunch_iff_TryPrepareLaunch_witness :
    (FScheduler.TryLaunch ExampleExterns () EQueuePreference.DefaultPreference true
        ⟨ETaskState.Unscheduled, []⟩).1 = true
    ∧ (FScheduler.TryLaunch ExampleExterns () EQueuePreference.DefaultPreference true
        ⟨ETaskState.Unscheduled, []⟩).2.Calls.length = 1
    ∧ (FScheduler.TryLaunch ExampleExterns () EQueuePreference.DefaultPreference true
        ⟨ETaskState.Scheduled, []⟩).1 = false
    ∧ (FScheduler.TryLaunch ExampleExterns () EQueuePreference.DefaultPreference true
        ⟨ETaskState.Scheduled, []⟩).2.Calls = [] := by
  have h1 := TryLaunch_iff_TryPrepareLaunch ExampleExterns ()
    EQueuePreference.DefaultPreference true ⟨ETaskState.Unscheduled, []⟩
  have h2 := TryLaunch_iff_TryPrepareLaunch ExampleExterns ()
    EQueuePreference.DefaultPreference true ⟨ETaskState.Scheduled, []⟩
  refine ⟨h1.1.trans rfl, ?_, h2.1.trans rfl, (h2.2.2 rfl).1⟩
  rw [(h1.2.1 rfl).1]
  rfl

/-! ### C2: two concurrent launches -/

theorem Reachable_Step_both :
    ∀ c ∈ FTwoLaunches.Reachable,
      c.Step EThread.A ∈ FTwoLaunches.Reachable ∧ c.Step EThread.B ∈ FTwoLaunches.Reachable
      ∧ c.Step EThread.Worker ∈ FTwoLaunches.Reachable := by
  decide

theorem Reachable_Step (c : FTwoLaunches) (hc : c ∈ FTwoLaunches.Reachable) (t : EThread) :
    c.Step t ∈ FTwoLaunches.Reachable := by
  cases t
  · exact (Reachable_Step_both c hc).1
  · exact (Reachable_Step_both c hc).2.1
  · exact (Reachable_Step_both c hc).2.2

theorem Reachable_Run (Schedule : List EThread) :
    ∀ c ∈ FTwoLaunches.Reachable, c.Run Schedule ∈ FTwoLaunches.Reachable := by
  induction Schedule with
  | nil => intro c hc; exact hc
  | cons t rest ih =>
      intro c hc
      exact ih (c.Step t) (Reachable_Step c hc t)

theorem Reachable_Returned :
    ∀ c ∈ FTwoLaunches.Reachable, ∀ a b : Bool,
      c.PcA = ETryLaunchPc.Returned a → c.PcB = ETryLaunchPc.Returned b →
      a ≠ b ∧ c.Enqueued = 1 := by
  decide

theorem Reachable_Executed :
    ∀ c ∈ FTwoLaunches.Reachable, c.Enqueued ≤ 1 ∧ c.Executed ≤ 1 := by
  decide

theorem Reachable_Returned_Executed :
    ∀ c ∈ FTwoLaunches.Reachable, ∀ a b : Bool,
      c.PcA = ETryLaunchPc.Returned a → c.PcB = ETryLaunchPc.Returned b →
      ((c.Step EThread.Worker).Step EThread.Worker).Executed = 1
      ∧ ((c.Step EThread.Worker).Step EThread.Worker).TaskState = ETaskState.Completed := by
  decide

theorem Run_append_Worker_Worker (c : FTwoLaunches) (Schedule : List EThread) :
    c.Run (Schedule ++ [EThread.Worker, EThread.Worker])
      = ((c.Run Schedule).Step EThread.Worker).Step EThread.Worker := by
  unfold FTwoLaunches.Run
  rw [List.foldl_append]
  rfl

theorem TryLaunchStep_twice_eq_TryLaunch (State : ETaskState) (Enqueued : Nat)
    (QueuePreference : EQueuePreference) (bWakeUpWorker : Bool)
    (Calls : List (FCall (ETaskState × Nat) Unit)) :
    TryLaunchStep
        (TryLaunchStep State Enqueued ETryLaunchPc.AtTryPrepareLaunch).1
        (TryLaunchStep State Enqueued ETryLaunchPc.AtTryPrepareLaunch).2.1
        (TryLaunchStep State Enqueued ETryLaunchPc.AtTryPrepareLaunch).2.2
      = ((FScheduler.TryLaunch TwoLaunchesExterns () QueuePreference bWakeUpWorker
            ⟨(State, Enqueued), Calls⟩).2.World.1,
         (FScheduler.TryLaunch TwoLaunchesExterns () QueuePreference bWakeUpWorker
            ⟨(State, Enqueued), Calls⟩).2.World.2,
         ETryLaunchPc.Returned
          (FScheduler.TryLaunch TwoLaunchesExterns () QueuePreference bWakeUpWorker
            ⟨(State, Enqueued), Calls⟩).1) := by
  cases State <;> rfl

theorem StepsLeft_TryLaunchStep (State : ETaskState) (n : Nat) (Pc : ETryLaunchPc) :
    (TryLaunchStep State n Pc).2.2.StepsLeft ≤ Pc.StepsLeft - 1 := by
  cases Pc <;> cases State <;>
    simp [TryLaunchStep, FTask.TryPrepareLaunch, ETryLaunchPc.StepsLeft]

theorem StepsLeft_Run (Schedule : List EThread) :
    ∀ c : FTwoLaunches,
      (c.Run Schedule).PcA.StepsLeft ≤ c.PcA.StepsLeft - Schedule.count EThread.A
      ∧ (c.Run Schedule).PcB.StepsLeft ≤ c.PcB.StepsLeft - Schedule.count EThread.B := by
  induction Schedule with
  | nil => intro c; simp [FTwoLaunches.Run]
  | cons t rest ih =>
      intro c
      have h := ih (c.Step t)
      have hA := StepsLeft_TryLaunchStep c.TaskState c.Enqueued c.PcA
      have hB := StepsLeft_TryLaunchStep c.TaskState c.Enqueued c.PcB
      have e3 : FTwoLaunches.Run c (t :: rest) = (c.Step t).Run rest := rfl
      rw [e3]
      cases t
      · have e1 : (c.Step EThread.A).PcA = (TryLaunchStep c.TaskState c.Enqueued c.PcA).2.2 := rfl
        have e2 : (c.Step EThread.A).PcB = c.PcB := rfl
        rw [List.count_cons_self, List.count_cons_of_ne (by decide)]
        rw [e1, e2] at h
        omega
      · have e1 : (c.Step EThread.B).PcB = (TryLaunchStep c.TaskState c.Enqueued c.PcB).2.2 := rfl
        have e2 : (c.Step EThread.B).PcA = c.PcA := rfl
        rw [List.count_cons_self, List.count_cons_of_ne (by decide)]
        rw [e1, e2] at h
        omega
      · have e1 : (c.Step EThread.Worker).PcA = c.PcA := by
          show c.WorkerStep.PcA = c.PcA
          unfold FTwoLaunches.WorkerStep
          split
          · split <;> rfl
          · rfl
        have e2 : (c.Step EThread.Worker).PcB = c.PcB := by
          show c.WorkerStep.PcB = c.PcB
          unfold FTwoLaunches.WorkerStep
          split
          · split <;> rfl
          · rfl
        rw [List.count_cons_of_ne (by decide), List.count_cons_of_ne (by decide)]
        rw [e1, e2] at h
        exact h

theorem Returned_of_StepsLeft (Pc : ETryLaunchPc) (h : Pc.StepsLeft ≤ 0) :
    ∃ r, Pc = ETryLaunchPc.Returned r := by
  cases Pc with
  | AtTryPrepareLaunch => simp [ETryLaunchPc.StepsLeft] at h
  | AtLaunchInternal => simp [ETryLaunchPc.StepsLeft] at h
  | Returned r => exact ⟨r, rfl⟩

/-- C2, as stated, fails for a task that is already scheduled when the two
calls start: both calls return `false`. -/
theorem ExactlyOneLaunch_fails_when_already_Scheduled :
    ¬ ExactlyOneLaunch ETaskState.Scheduled := by
  intro h
  have h2 := (h [EThread.A, EThread.B]).2.1 false false rfl rfl
  exact h2.1 rfl

/-- C2, amended (task and worker taken from the specification).  For every
task that has not been launched yet (state Unscheduled), when `TryLaunch(T)`
is called twice concurrently, the steps of the two calls and of a worker
interleaved in any order: once each thread has taken its two steps both calls
have returned; whenever both have returned, exactly one returned `true` and
the other returned `false`, and the task has been enqueued exactly once; and
the task is executed exactly once: at no time is it enqueued more than once or
`Execute()` invoked more than once, and once both calls have returned, two
more steps of the worker leave `Execute()` invoked exactly once and the task
completed. -/
theorem ExactlyOneLaunch_of_Unscheduled : ExactlyOneLaunch ETaskState.Unscheduled := by
  intro Schedule
  have hreach : (FTwoLaunches.Start ETaskState.Unscheduled).Run Schedule
      ∈ FTwoLaunches.Reachable := Reachable_Run Schedule _ (by decide)
  refine ⟨?_, ?_, Reachable_Executed _ hreach, ?_⟩
  · intro hA hB
    have h := StepsLeft_Run Schedule (FTwoLaunches.Start ETaskState.Unscheduled)
    have e1 : (FTwoLaunches.Start ETaskState.Unscheduled).PcA.StepsLeft = 2 := rfl
    have e2 : (FTwoLaunches.Start ETaskState.Unscheduled).PcB.StepsLeft = 2 := rfl
    rw [e1, e2] at h
    obtain ⟨a, ha⟩ := Returned_of_StepsLeft
      ((FTwoLaunches.Start ETaskState.Unscheduled).Run Schedule).PcA (by omega)
    obtain ⟨b, hb⟩ := Returned_of_StepsLeft
      ((FTwoLaunches.Start ETaskState.Unscheduled).Run Schedule).PcB (by omega)
    exact ⟨a, b, ha, hb⟩
  · intro a b ha hb
    exact Reachable_Returned _ hreach a b ha hb
  · intro a b ha hb
    rw [Run_append_Worker_Worker]
    exact Reachable_Returned_Executed _ hreach a b ha hb

/-! ### C3: `BusyWaitUntil` -/

/-- C3. `FScheduler::BusyWaitUntil(Cond, Force)`: when the first evaluation of
`Cond()` gives `true` it returns at once and makes no call of
`BusyWaitInternal`; when it gives `false` the function is exactly one call
`BusyWaitInternal(Cond, Force)` with the same predicate and flag, and returns
if and only if that call returns; so, `BusyWaitInternal` returning only right
after an evaluation of its predicate that gave `true`, every return of
`BusyWaitUntil` comes right after an evaluation of `Cond()` that gave `true`. -/
theorem BusyWaitUntil_returns_only_when_Cond {σ Task : Type} (E : FExterns σ Task)
    (Cond : σ → Bool × σ) (Force : Bool) (s : FState σ Task) :
    ((Cond s.World).1 = true →
        FScheduler.BusyWaitUntil E Cond Force s
          = some { World := (Cond s.World).2, Calls := s.Calls })
    ∧ ((Cond s.World).1 = false →
        FScheduler.BusyWaitUntil E Cond Force s
          = (E.BusyWaitInternal Cond Force (Cond s.World).2).map fun w1 =>
              { World := w1, Calls := s.Calls ++ [FCall.BusyWaitInternal Cond Force] })
    ∧ ((∀ w w1, E.BusyWaitInternal Cond Force w = some w1 → ∃ w0, Cond w0 = (true, w1)) →
        ∀ r, FScheduler.BusyWaitUntil E Cond Force s = some r →
          ∃ w0, Cond w0 = (true, r.World)) := by
  unfold FScheduler.BusyWaitUntil
  rcases h : Cond s.World with ⟨b, w⟩
  cases b
  · refine ⟨by simp, by simp, ?_⟩
    intro hE r hr
    simp only [Option.map_eq_some'] at hr
    obtain ⟨w1, hw1, rfl⟩ := hr
    exact hE w w1 hw1
  · refine ⟨by simp, by simp, ?_⟩
    intro _ r hr
    simp only [Option.some.injEq] at hr
    subst hr
    exact ⟨s.World, h⟩

/-- C3, exercised: waiting for an unscheduled task goes through one call of
`BusyWaitInternal` and returns with the task completed; waiting for a
completed task returns at once with no call. -/
theorem BusyWaitUntil_returns_only_when_Cond_witness :
    FScheduler.BusyWaitUntil ExampleExterns ExampleCond false ⟨ETaskState.Unscheduled, []⟩
        = some ⟨ETaskState.Completed, [FCall.BusyWaitInternal ExampleCond false]⟩
    ∧ FScheduler.BusyWaitUntil ExampleExterns ExampleCond false ⟨ETaskState.Completed, []⟩
        = some ⟨ETaskState.Completed, []⟩
    ∧ (∀ r, FScheduler.BusyWaitUntil ExampleExterns ExampleCond false
          ⟨ETaskState.Unscheduled, []⟩ = some r →
        ∃ w0, ExampleCond w0 = (true, r.World)) := by
  have h1 := BusyWaitUntil_returns_only_when_Cond ExampleExterns ExampleCond false
    ⟨ETaskState.Unscheduled, []⟩
  have h2 := BusyWaitUntil_returns_only_when_Cond ExampleExterns ExampleCond false
    ⟨ETaskState.Completed, []⟩
  refine ⟨(h1.2.1 rfl).trans rfl, (h2.1 rfl).trans rfl, h1.2.2 ?_⟩
  intro w w1 hw
  have e : w1 = ETaskState.Completed := by
    simp only [ExampleExterns, Option.some.injEq] at hw
    exact hw.symm
  exact ⟨ETaskState.Completed, by rw [e]; rfl⟩

/-! ### C4: `FOversubscriptionScope` -/

theorem AllowedScope_Destruct_counter (Scope : FOversubscriptionAllowedScope)
    (w : FOversubscriptionWorld) :
    (Scope.Destruct w).Oversubscription = w.Oversubscription := rfl

theorem Scope_Destruct_Construct_counter (bCondition : Bool) (w w1 : FOversubscriptionWorld) :
    (((FOversubscriptionScope.Construct bCondition w).1).Destruct w1).Oversubscription
      = w1.Oversubscription - (if bCondition && w.bIsOversubscriptionAllowed then 1 else 0) := by
  unfold FOversubscriptionScope.Construct FOversubscriptionScope.Destruct
    FOversubscriptionTls.IsOversubscriptionAllowed
  cases bCondition <;> cases w.bIsOversubscriptionAllowed <;>
    simp [FScheduler.DecrementOversubscription]

theorem Scope_Construct_counter (bCondition : Bool) (w : FOversubscriptionWorld) :
    (FOversubscriptionScope.Construct bCondition w).2.Oversubscription
      = w.Oversubscription + (if bCondition && w.bIsOversubscriptionAllowed then 1 else 0) := by
  unfold FOversubscriptionScope.Construct FOversubscriptionTls.IsOversubscriptionAllowed
  cases bCondition <;> cases w.bIsOversubscriptionAllowed <;>
    simp [FScheduler.IncrementOversubscription]

theorem ScopedCode_Run_counter (Code : FScopedCode) :
    ∀ w : FOversubscriptionWorld, (Code.Run w).Oversubscription = w.Oversubscription := by
  induction Code with
  | Done => intro w; rfl
  | OversubscriptionScope bCondition Body Next ihB ihN =>
      intro w
      simp only [FScopedCode.Run]
      rw [ihN, Scope_Destruct_Construct_counter, ihB, Scope_Construct_counter]
      omega
  | OversubscriptionAllowedScope b Body Next ihB ihN =>
      intro w
      simp only [FScopedCode.Run]
      rw [ihN, AllowedScope_Destruct_counter, ihB]
      rfl
  | FlagChanges b Next ihN =>
      intro w
      simp only [FScopedCode.Run]
      rw [ihN]

/-- C4. Constructing an `FOversubscriptionScope` adds one to the
oversubscription counter exactly when `bCondition` is true and oversubscription
is allowed on the thread at that moment, and leaves it alone otherwise;
destroying it, in whatever world `w1` the thread is by then (so whatever the
thread's flag has become), takes one off exactly when the constructor added
one; and any run of properly nested scopes leaves the counter at its initial
value. -/
theorem OversubscriptionScope_balanced (bCondition : Bool) (w w1 : FOversubscriptionWorld)
    (Code : FScopedCode) :
    (FOversubscriptionScope.Construct bCondition w).2.Oversubscription
        = w.Oversubscription + (if bCondition = true ∧ w.bIsOversubscriptionAllowed = true then 1 else 0)
    ∧ ((FOversubscriptionScope.Construct bCondition w).1.bIncrementOversubscriptionEmitted = true
        ↔ (bCondition = true ∧ w.bIsOversubscriptionAllowed = true))
    ∧ (((FOversubscriptionScope.Construct bCondition w).1).Destruct w1).Oversubscription
        = w1.Oversubscription
            - (if bCondition = true ∧ w.bIsOversubscriptionAllowed = true then 1 else 0)
    ∧ (Code.Run w).Oversubscription = w.Oversubscription := by
  refine ⟨?_, ?_, ?_, ScopedCode_Run_counter Code w⟩
  · rw [Scope_Construct_counter]
    cases bCondition <;> cases w.bIsOversubscriptionAllowed <;> simp
  · unfold FOversubscriptionScope.Construct FOversubscriptionTls.IsOversubscriptionAllowed
    cases bCondition <;> cases w.bIsOversubscriptionAllowed <;> simp
  · rw [Scope_Destruct_Construct_counter]
    cases bCondition <;> cases w.bIsOversubscriptionAllowed <;> simp

end LowLevelTasks

namespace SimpleCellGrid

/-! ### C5: `GetCellIndex` -/

theorem side_le_of_fit (W H : Nat) (hfit : W * H ≤ MaxSizeType) (hW : 1 ≤ W) (hH : 1 ≤ H) :
    W ≤ 2147483647 ∧ H ≤ 2147483647 := by
  unfold MaxSizeType at hfit
  constructor
  · exact Nat.le_trans (Nat.le_mul_of_pos_right W hH) hfit
  · exact Nat.le_trans (Nat.le_mul_of_pos_left H hW) hfit

theorem IsValidCoord_iff_InsideGrid {CellType : Type} (g : TSimpleCellGrid CellType)
    (X Y : Int) (hfit : g.GridSize.Width * g.GridSize.Height ≤ MaxSizeType) :
    g.IsValidCoord X Y = true ↔ InsideGrid g.GridSize X Y := by
  unfold TSimpleCellGrid.IsValidCoord InsideGrid
  simp only [Bool.and_eq_true, decide_eq_true_eq, and_assoc, ge_iff_le]
  rcases Nat.eq_zero_or_pos g.GridSize.Width with hW | hW
  · rw [hW]
    simp only [castInt32]
    omega
  rcases Nat.eq_zero_or_pos g.GridSize.Height with hH | hH
  · rw [hH]
    simp only [castInt32]
    omega
  obtain ⟨h1, h2⟩ := side_le_of_fit _ _ hfit hW hH
  rw [castInt32_of_le _ h1, castInt32_of_le _ h2]

theorem GetCellIndexUnsafe_of_InsideGrid {CellType : Type} (g : TSimpleCellGrid CellType)
    (X Y : Int) (hfit : g.GridSize.Width * g.GridSize.Height ≤ MaxSizeType)
    (hin : InsideGrid g.GridSize X Y) :
    g.GetCellIndexUnsafe X Y = X * g.GridSize.Height + Y ∧ 0 ≤ X * g.GridSize.Height + Y := by
  obtain ⟨hX0, hXW, hY0, hYH⟩ := hin
  obtain ⟨x, rfl⟩ := Int.eq_ofNat_of_zero_le hX0
  obtain ⟨y, rfl⟩ := Int.eq_ofNat_of_zero_le hY0
  have hx : x < g.GridSize.Width := by exact_mod_cast hXW
  have hy : y < g.GridSize.Height := by exact_mod_cast hYH
  have hmul : (x + 1) * g.GridSize.Height ≤ g.GridSize.Width * g.GridSize.Height :=
    Nat.mul_le_mul_right _ hx
  have hsum : x * g.GridSize.Height + y < g.GridSize.Width * g.GridSize.Height := by
    have : (x + 1) * g.GridSize.Height = x * g.GridSize.Height + g.GridSize.Height := by ring
    omega
  unfold MaxSizeType at hfit
  obtain ⟨h1, h2⟩ := side_le_of_fit _ _ hfit (by omega) (by omega)
  have hxy : x * g.GridSize.Height ≤ 2147483647 := by omega
  unfold TSimpleCellGrid.GetCellIndexUnsafe
  rw [castUInt32_of_nat x (by omega), castUInt32_of_nat y (by omega)]
  rw [Nat.mod_eq_of_lt (by omega : x * g.GridSize.Height < 4294967296)]
  rw [Nat.mod_eq_of_lt (by omega : x * g.GridSize.Height + y < 4294967296)]
  rw [castInt32_of_le _ (by omega)]
  constructor
  · push_cast
    ring
  · positivity

/-- C5, as stated, fails: in a grid of `2^31` by `1` cells the position
`(0, 0)` is inside the grid, yet `GetCellIndex(0, 0)` is `-1`, not
`0 * Height + 0`, because `(int32)GridSize.Width` is negative. -/
theorem GetCellIndex_fails_for_wide_grid :
    InsideGrid (GridOfSize 2147483648 1).GridSize 0 0
    ∧ (GridOfSize 2147483648 1).GetCellIndex 0 0 = INDEX_NONE
    ∧ (GridOfSize 2147483648 1).GetCellIndex 0 0
        ≠ 0 * ((GridOfSize 2147483648 1).GridSize.Height : Int) + 0 := by
  refine ⟨?_, by decide, by decide⟩
  unfold InsideGrid
  decide

/-- C5, amended.  For every grid whose `Width * Height` is at most
`2^31 - 1` (the cells fit the `int32`-indexed array) and all coordinates
`(X, Y)`: `GetCellIndex(X, Y)` is `-1` if and only if `(X, Y)` is outside the
grid, and for a position inside the grid it is `X * Height + Y`. -/
theorem GetCellIndex_spec {CellType : Type} (g : TSimpleCellGrid CellType) (X Y : Int)
    (hfit : g.GridSize.Width * g.GridSize.Height ≤ MaxSizeType) :
    (g.GetCellIndex X Y = INDEX_NONE ↔ ¬ InsideGrid g.GridSize X Y)
    ∧ (InsideGrid g.GridSize X Y → g.GetCellIndex X Y = X * g.GridSize.Height + Y) := by
  have hv := IsValidCoord_iff_InsideGrid g X Y hfit
  unfold TSimpleCellGrid.GetCellIndex
  by_cases hin : InsideGrid g.GridSize X Y
  · obtain ⟨he, h0⟩ := GetCellIndexUnsafe_of_InsideGrid g X Y hfit hin
    rw [if_pos (hv.mpr hin), he]
    refine ⟨?_, fun _ => rfl⟩
    unfold INDEX_NONE
    constructor
    · intro h; omega
    · intro h; exact absurd hin h
  · have hf : ¬ g.IsValidCoord X Y = true := fun h => hin (hv.mp h)
    rw [if_neg hf]
    exact ⟨⟨fun _ => hin, fun _ => rfl⟩, fun h => absurd h hin⟩

/-- C5, exercised on a grid of 3 by 4 cells. -/
theorem GetCellIndex_spec_witness :
    ((GridOfSize 3 4).GetCellIndex 2 3 = INDEX_NONE ↔ ¬ InsideGrid (GridOfSize 3 4).GridSize 2 3)
    ∧ (InsideGrid (GridOfSize 3 4).GridSize 2 3 →
        (GridOfSize 3 4).GetCellIndex 2 3 = 2 * ((GridOfSize 3 4).GridSize.Height : Int) + 3) :=
  GetCellIndex_spec (GridOfSize 3 4) 2 3 (by decide)

/-! ### C6: `Init` -/

/-- C6, the failing input.  On a freshly constructed grid
`Init(1, FGridSize2D(65536, 65536), Origin, 0)` returns `true`, the `ensure`
on the cell count does not fire, and yet the grid has no cell at all, while
`Width * Height` is `4294967296`: the product is taken in `uint32` and wraps
to `0` before it is widened. -/
theorem Init_cell_count_wraps :
    ((TSimpleCellGrid.Construct Unit).Init 1 ⟨65536, 65536⟩ ⟨0, 0, 0⟩ 0).1 = true
    ∧ ((TSimpleCellGrid.Construct Unit).Init 1 ⟨65536, 65536⟩ ⟨0, 0, 0⟩ 0).2.GetCellsCount = 0
    ∧ ((TSimpleCellGrid.Construct Unit).Init 1 ⟨65536, 65536⟩ ⟨0, 0, 0⟩ 0).2.GridSize
        = ⟨65536, 65536⟩
    ∧ InitEnsure ⟨65536, 65536⟩ = true
    ∧ (65536 : Int) * 65536 = 4294967296 := by
  decide

/-! ### C7: `GetCellCoords` -/

theorem Clamp_mem (X : Int) (n : Nat) (h1 : 1 ≤ n) (h : n ≤ 2147483647) :
    0 ≤ Clamp X 0 (castInt32 (castInt32 n - 1))
    ∧ Clamp X 0 (castInt32 (castInt32 n - 1)) < castInt32 n
    ∧ (0 ≤ X → X < castInt32 n → Clamp X 0 (castInt32 (castInt32 n - 1)) = X) := by
  rw [castInt32_of_le n h]
  have e : castInt32 ((n : Int) - 1) = (n : Int) - 1 := by
    unfold castInt32
    omega
  rw [e]
  unfold Clamp
  omega

/-- C7, as stated, fails: in a grid of `2^32 - 1` by `1` cells the
coordinates returned by `GetCellCoords` for unclamped coordinates `(0, 0, 0)`
are not valid, because `(int32)GridSize.Width` is `-1`. -/
theorem GetCellCoords_fails_for_wide_grid :
    1 ≤ (GridOfSize 4294967295 1).GridSize.Width
    ∧ 1 ≤ (GridOfSize 4294967295 1).GridSize.Height
    ∧ (GridOfSize 4294967295 1).GetCellCoordsUnsafe (fun _ _ _ => 0) ⟨0, 0, 0⟩ = ⟨0, 0, 0⟩
    ∧ (GridOfSize 4294967295 1).IsValidCoord
        ((GridOfSize 4294967295 1).GetCellCoords (fun _ _ _ => 0) ⟨0, 0, 0⟩).X
        ((GridOfSize 4294967295 1).GetCellCoords (fun _ _ _ => 0) ⟨0, 0, 0⟩).Y = false := by
  decide

/-- C7, amended.  For every grid with `1 <= Width <= 2^31 - 1` and
`1 <= Height <= 2^31 - 1` and every world location, whatever unclamped
coordinates `GetCellCoordsUnsafe` produced: the result `(X, Y, 0)` of
`GetCellCoords` satisfies `IsValidCoord(X, Y)`, and it equals the unclamped
coordinates whenever those were already valid. -/
theorem GetCellCoords_valid {CellType : Type} (g : TSimpleCellGrid CellType)
    (CellOf : ℚ → ℚ → ℚ → Int) (WorldLocation : FVector)
    (hW1 : 1 ≤ g.GridSize.Width) (hW : g.GridSize.Width ≤ 2147483647)
    (hH1 : 1 ≤ g.GridSize.Height) (hH : g.GridSize.Height ≤ 2147483647) :
    g.IsValidCoord (g.GetCellCoords CellOf WorldLocation).X
        (g.GetCellCoords CellOf WorldLocation).Y = true
    ∧ (g.GetCellCoords CellOf WorldLocation).Z = 0
    ∧ (g.IsValidCoord (g.GetCellCoordsUnsafe CellOf WorldLocation).X
          (g.GetCellCoordsUnsafe CellOf WorldLocation).Y = true →
        g.GetCellCoords CellOf WorldLocation = g.GetCellCoordsUnsafe CellOf WorldLocation) := by
  obtain ⟨a1, a2, a3⟩ := Clamp_mem (g.GetCellCoordsUnsafe CellOf WorldLocation).X _ hW1 hW
  obtain ⟨b1, b2, b3⟩ := Clamp_mem (g.GetCellCoordsUnsafe CellOf WorldLocation).Y _ hH1 hH
  unfold TSimpleCellGrid.IsValidCoord TSimpleCellGrid.GetCellCoords
  simp only [Bool.and_eq_true, decide_eq_true_eq, ge_iff_le]
  refine ⟨⟨⟨⟨a1, a2⟩, b1⟩, b2⟩, trivial, ?_⟩
  rintro ⟨⟨⟨c1, c2⟩, c3⟩, c4⟩
  rw [a3 c1 c2, b3 c3 c4]
  rfl

/-- C7, exercised on a grid of 3 by 4 cells: the world location `(7, -2, 5)`
has unclamped coordinates `(7, -2, 0)`, which are clamped to `(2, 0, 0)`, and
the world location `(1, 3, 5)` has the valid coordinates `(1, 3, 0)`, which
are returned as they are. -/
theorem GetCellCoords_valid_witness :
    (GridOfSize 3 4).GetCellCoordsUnsafe WholeCellOf ⟨7, -2, 5⟩ = ⟨7, -2, 0⟩
    ∧ (GridOfSize 3 4).GetCellCoords WholeCellOf ⟨7, -2, 5⟩ = ⟨2, 0, 0⟩
    ∧ (GridOfSize 3 4).IsValidCoord
        ((GridOfSize 3 4).GetCellCoords WholeCellOf ⟨7, -2, 5⟩).X
        ((GridOfSize 3 4).GetCellCoords WholeCellOf ⟨7, -2, 5⟩).Y = true
    ∧ (GridOfSize 3 4).GetCellCoords WholeCellOf ⟨1, 3, 5⟩
        = (GridOfSize 3 4).GetCellCoordsUnsafe WholeCellOf ⟨1, 3, 5⟩ :=
  ⟨by decide, by decide,
   (GetCellCoords_valid (GridOfSize 3 4) WholeCellOf ⟨7, -2, 5⟩
      (by decide) (by decide) (by decide) (by decide)).1,
   (GetCellCoords_valid (GridOfSize 3 4) WholeCellOf ⟨1, 3, 5⟩
      (by decide) (by decide) (by decide) (by decide)).2.2 (by decide)⟩

end SimpleCellGrid

namespace WorldLocations

/-! ### C8: the dirty bit in `UpdateWorldLocation` -/

theorem UpdateWorldLocation_dirty_bit_unchanged (self : FWorldLocations) (ObjectIndex : Nat)
    (WorldLocation : FVector) (Index : Nat) :
    (self.UpdateWorldLocation ObjectIndex WorldLocation).ObjectsWithDirtyInfo.GetBit Index
      = self.ObjectsWithDirtyInfo.GetBit Index := by
  unfold FWorldLocations.UpdateWorldLocation FNetBitArray.SetBitValue FNetBitArray.GetBit
  by_cases h : Index = ObjectIndex
  · subst h
    simp
  · simp [h]

theorem SetObjectInfo_marks_moved_object_dirty (self : FWorldLocations) (ObjectIndex : Nat)
    (ObjectInfo : FObjectInfo)
    (hmoved : (self.StoredObjectInfo ObjectIndex).WorldLocation ≠ ObjectInfo.WorldLocation) :
    (self.SetObjectInfo ObjectIndex ObjectInfo).ObjectsWithDirtyInfo.GetBit ObjectIndex = true := by
  unfold FWorldLocations.SetObjectInfo FNetBitArray.SetBitValue FNetBitArray.GetBit
  simp [hmoved]

/-- C8, the failing input.  Object 3 has valid info, is stored at the origin
and is not dirty; `UpdateWorldLocation(3, (1, 2, 3))` stores the new location,
which is inside the boundary and differs from the old one, and leaves the
object's bit in `ObjectsWithDirtyInfo` clear.  The same move made through
`SetObjectInfo` sets the bit. -/
theorem UpdateWorldLocation_leaves_moved_object_clean :
    ExampleLocations.HasInfoForObject 3 = true
    ∧ ExampleLocations.ObjectsWithDirtyInfo.GetBit 3 = false
    ∧ ExampleLocations.ClampPositionToBoundary ⟨1, 2, 3⟩ ≠ ExampleLocations.GetWorldLocation 3
    ∧ (ExampleLocations.UpdateWorldLocation 3 ⟨1, 2, 3⟩).GetWorldLocation 3 = ⟨1, 2, 3⟩
    ∧ (ExampleLocations.UpdateWorldLocation 3 ⟨1, 2, 3⟩).ObjectsWithDirtyInfo.GetBit 3 = false
    ∧ (ExampleLocations.SetObjectInfo 3 ⟨⟨1, 2, 3⟩, 0⟩).ObjectsWithDirtyInfo.GetBit 3 = true := by
  decide

/-! ### C9: stored locations are inside the boundary -/

theorem Clamp_between (X Lo Hi : ℚ) (h : Lo ≤ Hi) : Lo ≤ Clamp X Lo Hi ∧ Clamp X Lo Hi ≤ Hi := by
  unfold Clamp
  exact ⟨le_max_right _ _, max_le (min_le_right _ _) h⟩

theorem Clamp_of_between (X Lo Hi : ℚ) (h1 : Lo ≤ X) (h2 : X ≤ Hi) : Clamp X Lo Hi = X := by
  unfold Clamp
  rw [min_eq_left h2, max_eq_left h1]

theorem BoundToBox_mem (P Lo Hi : FVector) (h : FVector.AllLE Lo Hi) :
    FVector.AllLE Lo (FVector.BoundToBox P Lo Hi) ∧ FVector.AllLE (FVector.BoundToBox P Lo Hi) Hi := by
  obtain ⟨hx, hy, hz⟩ := h
  unfold FVector.AllLE FVector.BoundToBox
  exact ⟨⟨(Clamp_between _ _ _ hx).1, (Clamp_between _ _ _ hy).1, (Clamp_between _ _ _ hz).1⟩,
         ⟨(Clamp_between _ _ _ hx).2, (Clamp_between _ _ _ hy).2, (Clamp_between _ _ _ hz).2⟩⟩

theorem BoundToBox_of_mem (P Lo Hi : FVector) (h1 : FVector.AllLE Lo P) (h2 : FVector.AllLE P Hi) :
    FVector.BoundToBox P Lo Hi = P := by
  obtain ⟨ax, ay, az⟩ := h1
  obtain ⟨bx, by_, bz⟩ := h2
  unfold FVector.BoundToBox
  rw [Clamp_of_between _ _ _ ax bx, Clamp_of_between _ _ _ ay by_, Clamp_of_between _ _ _ az bz]

theorem GetWorldLocation_SetObjectInfo (self : FWorldLocations) (ObjectIndex : Nat)
    (ObjectInfo : FObjectInfo) (hvalid : self.HasInfoForObject ObjectIndex = true) :
    (self.SetObjectInfo ObjectIndex ObjectInfo).GetWorldLocation ObjectIndex
      = FVector.BoundToBox ObjectInfo.WorldLocation self.MinWorldPos self.MaxWorldPos := by
  unfold FWorldLocations.HasInfoForObject at hvalid
  unfold FWorldLocations.GetWorldLocation FWorldLocations.SetObjectInfo
  simp [hvalid, FWorldLocations.ClampPositionToBoundary, FWorldLocations.GetWorldMinPos,
    FWorldLocations.GetWorldMaxPos]

theorem GetWorldLocation_UpdateWorldLocation (self : FWorldLocations) (ObjectIndex : Nat)
    (WorldLocation : FVector) (hvalid : self.HasInfoForObject ObjectIndex = true) :
    (self.UpdateWorldLocation ObjectIndex WorldLocation).GetWorldLocation ObjectIndex
      = FVector.BoundToBox WorldLocation self.MinWorldPos self.MaxWorldPos := by
  unfold FWorldLocations.HasInfoForObject at hvalid
  unfold FWorldLocations.GetWorldLocation FWorldLocations.UpdateWorldLocation
  simp [hvalid, FWorldLocations.ClampPositionToBoundary, FWorldLocations.GetWorldMinPos,
    FWorldLocations.GetWorldMaxPos]

/-- C9. For every object with valid info and every input position, with
`MinPos <= MaxPos` in each coordinate: after `SetObjectInfo` and after
`UpdateWorldLocation` the value `GetWorldLocation` returns for the object lies,
coordinate by coordinate, between `GetWorldMinPos()` and `GetWorldMaxPos()`,
and it is the input position when that was already inside the boundary. -/
theorem stored_location_inside_boundary (self : FWorldLocations) (ObjectIndex : Nat)
    (ObjectInfo : FObjectInfo) (WorldLocation : FVector)
    (hvalid : self.HasInfoForObject ObjectIndex = true)
    (hbox : FVector.AllLE self.GetWorldMinPos self.GetWorldMaxPos) :
    (FVector.AllLE (self.SetObjectInfo ObjectIndex ObjectInfo).GetWorldMinPos
        ((self.SetObjectInfo ObjectIndex ObjectInfo).GetWorldLocation ObjectIndex)
      ∧ FVector.AllLE ((self.SetObjectInfo ObjectIndex ObjectInfo).GetWorldLocation ObjectIndex)
        (self.SetObjectInfo ObjectIndex ObjectInfo).GetWorldMaxPos)
    ∧ (FVector.AllLE self.GetWorldMinPos ObjectInfo.WorldLocation →
        FVector.AllLE ObjectInfo.WorldLocation self.GetWorldMaxPos →
        (self.SetObjectInfo ObjectIndex ObjectInfo).GetWorldLocation ObjectIndex
          = ObjectInfo.WorldLocation)
    ∧ (FVector.AllLE (self.UpdateWorldLocation ObjectIndex WorldLocation).GetWorldMinPos
        ((self.UpdateWorldLocation ObjectIndex WorldLocation).GetWorldLocation ObjectIndex)
      ∧ FVector.AllLE
        ((self.UpdateWorldLocation ObjectIndex WorldLocation).GetWorldLocation ObjectIndex)
        (self.UpdateWorldLocation ObjectIndex WorldLocation).GetWorldMaxPos)
    ∧ (FVector.AllLE self.GetWorldMinPos WorldLocation →
        FVector.AllLE WorldLocation self.GetWorldMaxPos →
        (self.UpdateWorldLocation ObjectIndex WorldLocation).GetWorldLocation ObjectIndex
          = WorldLocation) := by
  rw [GetWorldLocation_SetObjectInfo self ObjectIndex ObjectInfo hvalid,
    GetWorldLocation_UpdateWorldLocation self ObjectIndex WorldLocation hvalid]
  have e1 : (self.SetObjectInfo ObjectIndex ObjectInfo).GetWorldMinPos = self.MinWorldPos := rfl
  have e2 : (self.SetObjectInfo ObjectIndex ObjectInfo).GetWorldMaxPos = self.MaxWorldPos := rfl
  have e3 : (self.UpdateWorldLocation ObjectIndex WorldLocation).GetWorldMinPos
      = self.MinWorldPos := rfl
  have e4 : (self.UpdateWorldLocation ObjectIndex WorldLocation).GetWorldMaxPos
      = self.MaxWorldPos := rfl
  rw [e1, e2, e3, e4]
  unfold FWorldLocations.GetWorldMinPos FWorldLocations.GetWorldMaxPos at hbox ⊢
  exact ⟨BoundToBox_mem _ _ _ hbox, fun h1 h2 => BoundToBox_of_mem _ _ _ h1 h2,
         BoundToBox_mem _ _ _ hbox, fun h1 h2 => BoundToBox_of_mem _ _ _ h1 h2⟩

/-- C9, exercised: with the default boundary, a position outside it is
stored clamped, by `SetObjectInfo` and by `UpdateWorldLocation`. -/
theorem stored_location_inside_boundary_witness :
    (ExampleLocations.SetObjectInfo 3 ⟨⟨1, 2000000, -3000000⟩, 5⟩).GetWorldLocation 3
        = ⟨1, 1048576, -1048576⟩
    ∧ (ExampleLocations.UpdateWorldLocation 3 ⟨1, 2000000, -3000000⟩).GetWorldLocation 3
        = ⟨1, 1048576, -1048576⟩
    ∧ FVector.AllLE
        ((ExampleLocations.UpdateWorldLocation 3 ⟨1, 2000000, -3000000⟩).GetWorldLocation 3)
        (ExampleLocations.UpdateWorldLocation 3 ⟨1, 2000000, -3000000⟩).GetWorldMaxPos :=
  ⟨by decide, by decide,
   (stored_location_inside_boundary ExampleLocations 3 ⟨⟨1, 2000000, -3000000⟩, 5⟩
      ⟨1, 2000000, -3000000⟩ (by decide)
      (by unfold FVector.AllLE; decide)).2.2.1.2⟩

end WorldLocations

namespace TraceChannel

/-! ### C10: channel names and a trailing `'s'` -/

theorem or_32_eq_115 (m : Nat) : m ||| 32 = 115 ↔ m = 83 ∨ m = 115 := by
  constructor
  · intro h
    have hlt : m < 2 ^ 7 := by
      apply Nat.lt_pow_two_of_testBit
      intro i hi
      have h1 : (m ||| 32).testBit i = false := by
        rw [h]
        apply Nat.testBit_lt_two_pow
        calc 115 < 2 ^ 7 := by decide
          _ ≤ 2 ^ i := Nat.pow_le_pow_right (by decide) hi
      rw [Nat.testBit_or] at h1
      simp only [Bool.or_eq_false_iff] at h1
      exact h1.1
    have hall : ∀ k < 2 ^ 7, k ||| 32 = 115 → k = 83 ∨ k = 115 := by decide
    exact hall m hlt h
  · rintro (rfl | rfl) <;> decide

theorem lor_32_eq_115 (c : Int) : Int.lor c 32 = 115 ↔ c = 83 ∨ c = 115 := by
  cases c with
  | ofNat m =>
      have e : Int.lor (Int.ofNat m) 32 = ((m ||| 32 : Nat) : Int) := rfl
      rw [e]
      constructor
      · intro h
        have h1 : m ||| 32 = 115 := by exact_mod_cast h
        rcases (or_32_eq_115 m).mp h1 with h2 | h2 <;> subst h2
        · exact Or.inl rfl
        · exact Or.inr rfl
      · intro h
        have h1 : m = 83 ∨ m = 115 := by
          rcases h with h | h
          · exact Or.inl (Int.ofNat.inj h)
          · exact Or.inr (Int.ofNat.inj h)
        rw [(or_32_eq_115 m).mpr h1]
        rfl
  | negSucc m =>
      have e : Int.lor (Int.negSucc m) 32 = Int.negSucc (Nat.ldiff m 32) := rfl
      rw [e]
      constructor
      · intro h
        exact absurd h (by simp)
      · rintro (h | h) <;> exact absurd h (by simp)

theorem GetChannelHashLoop_append (Input Rest : List Int) :
    ∀ Result : Nat,
      GetChannelHashLoop (Input ++ Rest) Input.length Result
        = GetChannelHashLoop Input Input.length Result := by
  induction Input with
  | nil => intro Result; simp [GetChannelHashLoop]
  | cons c Input ih =>
      intro Result
      simp only [List.cons_append, List.length_cons, GetChannelHashLoop]
      exact ih _

theorem GetChannelNameLength_of_no_suffix (ChannelName : List Int)
    (hlen : ChannelName.length < 4294967296) (hc : ¬ HasChannelSuffix ChannelName) :
    GetChannelNameLength ChannelName = ChannelName.length := by
  unfold GetChannelNameLength
  simp only [Nat.mod_eq_of_lt hlen]
  rw [if_neg]
  rintro ⟨h7, hd⟩
  exact hc ⟨h7, hd ▸ List.drop_suffix _ _⟩

theorem not_HasChannelSuffix_concat (ChannelName : List Int) (c : Int) (hc : c ≠ 108) :
    ¬ HasChannelSuffix (ChannelName ++ [c]) := by
  rintro ⟨_, t, ht⟩
  have h1 : (t ++ ChannelSuffix).getLast? = (ChannelName ++ [c]).getLast? := by rw [ht]
  rw [List.getLast?_concat] at h1
  have h2 : (t ++ ChannelSuffix).getLast? = some 108 := by
    simp [ChannelSuffix]
  rw [h2] at h1
  exact hc (Option.some.inj h1).symm

theorem GetChannelHash_full (ChannelName : List Int) (hs : ¬ EndsInS ChannelName) :
    GetChannelHash ChannelName (ChannelName.length : Int)
      = GetChannelHashLoop ChannelName ChannelName.length 2166136261 := by
  unfold GetChannelHash
  rcases List.eq_nil_or_concat ChannelName with rfl | ⟨m, d, rfl⟩
  · simp
  · rw [List.concat_eq_append] at hs ⊢
    have hd : ¬ Int.lor d 32 = 115 := by
      intro h
      apply hs
      unfold EndsInS
      rw [List.getLast?_concat]
      rcases (lor_32_eq_115 d).mp h with h1 | h1
      · exact Or.inr (by rw [h1])
      · exact Or.inl (by rw [h1])
    have e : ((((m ++ [d]).length : Nat) : Int) - 1).toNat = m.length := by
      simp
    have e2 : (m ++ [d]).getD m.length 0 = d := by simp
    dsimp only
    rw [e, e2, if_neg (fun h => hd h.2)]
    simp

theorem GetChannelHash_concat_s (ChannelName : List Int) (c : Int) (hc : Int.lor c 32 = 115) :
    GetChannelHash (ChannelName ++ [c]) (((ChannelName ++ [c]).length : Nat) : Int)
      = GetChannelHashLoop ChannelName ChannelName.length 2166136261 := by
  unfold GetChannelHash
  have e : ((((ChannelName ++ [c]).length : Nat) : Int) - 1).toNat = ChannelName.length := by
    simp
  have e2 : (ChannelName ++ [c]).getD ChannelName.length 0 = c := by simp
  have e3 : (((ChannelName ++ [c]).length : Nat) : Int) > 0 := by
    simp only [List.length_append, List.length_singleton]
    omega
  dsimp only
  rw [e, e2, if_pos ⟨e3, hc⟩, e]
  exact GetChannelHashLoop_append ChannelName [c] _

theorem ChannelId_concat_s (ChannelName : List Int) (c : Int) (hc : c = 115 ∨ c = 83)
    (hlen : ChannelName.length < 2147483647)
    (hs : ¬ EndsInS ChannelName) (hsuf : ¬ HasChannelSuffix ChannelName) :
    ChannelId (ChannelName ++ [c]) = ChannelId ChannelName := by
  have hc108 : c ≠ 108 := by rcases hc with h | h <;> rw [h] <;> decide
  have hlor : Int.lor c 32 = 115 := (lor_32_eq_115 c).mpr (hc.symm)
  have hl1 : (ChannelName ++ [c]).length < 4294967296 := by
    simp only [List.length_append, List.length_singleton]
    omega
  have hl2 : (ChannelName ++ [c]).length ≤ 2147483647 := by
    simp only [List.length_append, List.length_singleton]
    omega
  unfold ChannelId
  rw [GetChannelNameLength_of_no_suffix _ hl1 (not_HasChannelSuffix_concat _ c hc108),
    GetChannelNameLength_of_no_suffix _ (by omega) hsuf,
    castInt32_of_le _ hl2, castInt32_of_le _ (by omega),
    GetChannelHash_concat_s _ c hlor, GetChannelHash_full _ hs]

theorem FindChannel_of_ChannelId_eq (Lists : FChannelLists) (a b : List Int)
    (h : ChannelId a = ChannelId b) :
    FChannel.FindChannel Lists a = FChannel.FindChannel Lists b := by
  unfold ChannelId at h
  unfold FChannel.FindChannel
  simp only [h]

/-- C10, as stated, fails for a name that already ends in `'s'`: only one
trailing `'s'` is dropped, so `"Logs"` and `"Logss"` get different ids, and a
channel set up as `"Logs"` is found under `"Logs"` but not under `"Logss"`.
It fails as well for a name with the `"Channel"` suffix: `"LogChannel"` and
`"LogChannels"` get different ids. -/
theorem ChannelId_not_tolerant_after_s :
    ChannelId (Name "Logs" ++ [115]) ≠ ChannelId (Name "Logs")
    ∧ FChannel.FindChannel (FChannel.Setup ⟨[], [], false⟩ (Name "Logs")) (Name "Logs" ++ [115]) = none
    ∧ (FChannel.FindChannel (FChannel.Setup ⟨[], [], false⟩ (Name "Logs")) (Name "Logs")).isSome = true
    ∧ ChannelId (Name "LogChannel" ++ [115]) ≠ ChannelId (Name "LogChannel") := by
  decide

/-- C10, amended.  For every channel name `n` of fewer than `2^31 - 1`
characters that does not itself end in `'s'` or `'S'` and does not have the
`"Channel"` suffix (more than 7 characters, the last 7 being `"Channel"`), the
channel id computed for `n` (`GetChannelHash` over the first
`GetChannelNameLength(n)` characters) is the id computed for `n` followed by
`'s'` and for `n` followed by `'S'`, so `FindChannel` finds the same channel
under the three names; and `"Log"`, `"log"`, `"logs"`, `"LOGS"` and
`"LogsChannel"` all get the same id. -/
theorem ChannelId_tolerant_to_ending_s (n : List Int) (hlen : n.length < 2147483647)
    (hs : ¬ EndsInS n) (hsuf : ¬ HasChannelSuffix n) :
    ChannelId (n ++ [115]) = ChannelId n
    ∧ ChannelId (n ++ [83]) = ChannelId n
    ∧ (∀ Lists : FChannelLists,
        FChannel.FindChannel Lists (n ++ [115]) = FChannel.FindChannel Lists n
        ∧ FChannel.FindChannel Lists (n ++ [83]) = FChannel.FindChannel Lists n)
    ∧ (ChannelId (Name "log") = ChannelId (Name "Log")
        ∧ ChannelId (Name "logs") = ChannelId (Name "Log")
        ∧ ChannelId (Name "LOGS") = ChannelId (Name "Log")
        ∧ ChannelId (Name "LogsChannel") = ChannelId (Name "Log"))
    ∧ (∀ Lists : FChannelLists,
        FChannel.FindChannel Lists (Name "log") = FChannel.FindChannel Lists (Name "Log")
        ∧ FChannel.FindChannel Lists (Name "logs") = FChannel.FindChannel Lists (Name "Log")
        ∧ FChannel.FindChannel Lists (Name "LOGS") = FChannel.FindChannel Lists (Name "Log")
        ∧ FChannel.FindChannel Lists (Name "LogsChannel")
            = FChannel.FindChannel Lists (Name "Log")) := by
  have h1 := ChannelId_concat_s n 115 (Or.inl rfl) hlen hs hsuf
  have h2 := ChannelId_concat_s n 83 (Or.inr rfl) hlen hs hsuf
  exact ⟨h1, h2,
    fun Lists => ⟨FindChannel_of_ChannelId_eq Lists _ _ h1, FindChannel_of_ChannelId_eq Lists _ _ h2⟩,
    by decide,
    fun Lists => ⟨FindChannel_of_ChannelId_eq Lists _ _ (by decide),
      FindChannel_of_ChannelId_eq Lists _ _ (by decide),
      FindChannel_of_ChannelId_eq Lists _ _ (by decide),
      FindChannel_of_ChannelId_eq Lists _ _ (by decide)⟩⟩

/-- C10, exercised on `"Log"`: `"Logs"` and `"LogS"` get the id of `"Log"`,
and a channel set up as `"LogChannel"` is found under `"Logs"`. -/
theorem ChannelId_tolerant_to_ending_s_witness :
    ChannelId (Name "Log" ++ [115]) = ChannelId (Name "Log")
    ∧ ChannelId (Name "Log" ++ [83]) = ChannelId (Name "Log")
    ∧ FChannel.FindChannel (FChannel.Setup ⟨[], [], false⟩ (Name "LogChannel")) (Name "Log" ++ [115])
        = FChannel.FindChannel (FChannel.Setup ⟨[], [], false⟩ (Name "LogChannel")) (Name "Log")
    ∧ (FChannel.FindChannel (FChannel.Setup ⟨[], [], false⟩ (Name "LogChannel")) (Name "Log")).isSome
        = true := by
  have h := ChannelId_tolerant_to_ending_s (Name "Log") (by decide)
    (by unfold EndsInS; decide) (by unfold HasChannelSuffix; decide)
  exact ⟨h.1, h.2.1, (h.2.2.1 _).1, by decide⟩

end TraceChannel

namespace AsyncFileHandle

/-! ### C11: a canceled request exposes no result -/

theorem Apply_flags (self : IAsyncReadRequest) (Action : FImplAction) :
    (Action.Apply self).bCanceled = self.bCanceled
    ∧ (Action.Apply self).bSizeRequest = self.bSizeRequest
    ∧ (self.bDataIsReady = true → (Action.Apply self).bDataIsReady = true) := by
  cases Action with
  | Store Value => exact ⟨rfl, rfl, fun h => h⟩
  | StoreCompleteSync bValue => exact ⟨rfl, rfl, fun h => h⟩
  | SetAllComplete => exact ⟨rfl, rfl, fun h => h⟩
  | SetDataComplete =>
      simp only [FImplAction.Apply, IAsyncReadRequest.SetDataComplete]
      split <;> exact ⟨rfl, rfl, fun _ => rfl⟩
  | SetComplete =>
      simp only [FImplAction.Apply, IAsyncReadRequest.SetComplete,
        IAsyncReadRequest.SetAllComplete, IAsyncReadRequest.SetDataComplete]
      split <;> exact ⟨rfl, rfl, fun _ => rfl⟩

theorem RunImpl_flags (Impl : List FImplAction) :
    ∀ self : IAsyncReadRequest,
      (self.RunImpl Impl).bCanceled = self.bCanceled
      ∧ (self.RunImpl Impl).bSizeRequest = self.bSizeRequest
      ∧ (self.bDataIsReady = true → (self.RunImpl Impl).bDataIsReady = true) := by
  induction Impl with
  | nil => intro self; exact ⟨rfl, rfl, fun h => h⟩
  | cons a rest ih =>
      intro self
      obtain ⟨h1, h2, h3⟩ := Apply_flags self a
      obtain ⟨k1, k2, k3⟩ := ih (a.Apply self)
      have e : self.RunImpl (a :: rest) = (a.Apply self).RunImpl rest := rfl
      rw [e]
      exact ⟨k1.trans h1, k2.trans h2, fun h => k3 (h3 h)⟩

theorem Cancel_flags (self : IAsyncReadRequest) (CancelImpl : List FImplAction) :
    (self.Cancel CancelImpl).bCanceled = true
    ∧ (self.Cancel CancelImpl).bSizeRequest = self.bSizeRequest
    ∧ ((self.bCanceled = true → self.bDataIsReady = true) →
        (self.Cancel CancelImpl).bDataIsReady = true) := by
  unfold IAsyncReadRequest.Cancel
  by_cases hc : self.bCanceled = true
  · have e : (!self.bCanceled) = false := by rw [hc]; rfl
    rw [e, if_neg (by decide)]
    exact ⟨hc, rfl, fun h => h hc⟩
  · have e : (!self.bCanceled) = true := by
      cases hb : self.bCanceled
      · rfl
      · exact absurd hb hc
    rw [e, if_pos rfl]
    dsimp only
    split
    · obtain ⟨k1, k2, k3⟩ := RunImpl_flags CancelImpl
        { self with bCanceled := true, bDataIsReady := true }
      exact ⟨k1, k2, fun _ => k3 rfl⟩
    · exact ⟨rfl, rfl, fun _ => rfl⟩

theorem Run_flags (History : List FEvent) :
    ∀ self : IAsyncReadRequest,
      (self.Run History).bSizeRequest = self.bSizeRequest
      ∧ (self.bCanceled = true → (self.Run History).bCanceled = true)
      ∧ ((self.bCanceled = true → self.bDataIsReady = true) →
          ((self.Run History).bCanceled = true → (self.Run History).bDataIsReady = true)) := by
  induction History with
  | nil => intro self; exact ⟨rfl, fun h => h, fun h => h⟩
  | cons e rest ih =>
      intro self
      have hrun : self.Run (e :: rest) = (e.Apply self).Run rest := rfl
      rw [hrun]
      obtain ⟨k1, k2, k3⟩ := ih (e.Apply self)
      cases e with
      | Impl a =>
          obtain ⟨h1, h2, h3⟩ := Apply_flags self a
          have ea : FEvent.Apply self (FEvent.Impl a) = a.Apply self := rfl
          rw [ea] at k1 k2 k3 ⊢
          refine ⟨k1.trans h2, fun h => k2 (h1.trans h), fun hinv => k3 ?_⟩
          intro hc
          exact h3 (hinv (h1.symm.trans hc))
      | Cancel impl =>
          obtain ⟨h1, h2, h3⟩ := Cancel_flags self impl
          have ec : FEvent.Apply self (FEvent.Cancel impl) = self.Cancel impl := rfl
          rw [ec] at k1 k2 k3 ⊢
          exact ⟨k1.trans h2, fun _ => k2 h1, fun hinv => k3 (fun _ => h3 hinv)⟩

theorem Construct_flags (DO_CHECK : Bool) (InCallback : Option Bool) (bInSizeRequest : Bool)
    (UserSuppliedMemory : Int) (self : IAsyncReadRequest)
    (h : IAsyncReadRequest.Construct DO_CHECK InCallback bInSizeRequest UserSuppliedMemory
      = some self) :
    self.bCanceled = false ∧ self.bSizeRequest = bInSizeRequest := by
  unfold IAsyncReadRequest.Construct at h
  cases bInSizeRequest
  · simp only [Bool.false_eq_true, if_false] at h
    split at h
    · cases h; exact ⟨rfl, rfl⟩
    · cases h
  · simp only [if_true] at h
    split at h
    · cases h; exact ⟨rfl, rfl⟩
    · cases h

theorem GetSizeResults_of_canceled (DO_CHECK : Bool) (self : IAsyncReadRequest)
    (hc : self.bCanceled = true) (hr : self.bDataIsReady = true)
    (hs : self.bSizeRequest = true) :
    self.GetSizeResults DO_CHECK = some (-1) := by
  unfold IAsyncReadRequest.GetSizeResults check
  simp [hc, hr, hs]

theorem GetReadResults_of_canceled (DO_CHECK : Bool) (Release : List FImplAction)
    (self : IAsyncReadRequest)
    (hc : self.bCanceled = true) (hr : self.bDataIsReady = true)
    (hs : self.bSizeRequest = false) :
    ∃ self1, self.GetReadResults DO_CHECK Release = some (nullptr, self1) := by
  unfold IAsyncReadRequest.GetReadResults check
  simp only [hc, hr, hs, Bool.not_false, Bool.and_self, Bool.or_true, if_true, Bool.true_and]
  by_cases hm : self.Memory = nullptr
  · simp [hm]
  · simp [hm]

/-- C11, as stated, fails in its last part: a size request that has just been
constructed is not canceled, its stored `Size` is `-1`, and `GetSizeResults()`
does not return it, because `check(bDataIsReady && bSizeRequest)` stops the
program (in a build with checks). -/
theorem GetSizeResults_stops_when_not_ready :
    IAsyncReadRequest.Construct true none true nullptr = some FreshSizeRequest
    ∧ FreshSizeRequest.bCanceled = false
    ∧ FreshSizeRequest.Size = -1
    ∧ FreshSizeRequest.GetSizeResults true = none
    ∧ FreshSizeRequest.GetSizeResults true ≠ some FreshSizeRequest.Size := by
  decide

/-- C11, amended.  For every request, constructed in any way, then subject to
any history of implementation actions and `Cancel()` calls, then canceled,
then subject to any further history (so whatever `Size` or `Memory` the
implementation stored): `GetSizeResults()` returns `-1` for a size request and
`GetReadResults()` returns null for a read request.  For every size request
that was not canceled and whose data is ready, `GetSizeResults()` returns the
stored `Size`. -/
theorem canceled_request_exposes_no_result (DO_CHECK : Bool) (InCallback : Option Bool)
    (bInSizeRequest : Bool) (UserSuppliedMemory : Int) (self : IAsyncReadRequest)
    (Before After : List FEvent) (CancelImpl ReleaseMemoryOwnershipImpl : List FImplAction)
    (hnew : IAsyncReadRequest.Construct DO_CHECK InCallback bInSizeRequest UserSuppliedMemory
      = some self) :
    (bInSizeRequest = true →
        (((self.Run Before).Cancel CancelImpl).Run After).GetSizeResults DO_CHECK = some (-1))
    ∧ (bInSizeRequest = false →
        ∃ self1,
          (((self.Run Before).Cancel CancelImpl).Run After).GetReadResults DO_CHECK
            ReleaseMemoryOwnershipImpl = some (nullptr, self1))
    ∧ (∀ Other : IAsyncReadRequest,
        Other.bCanceled = false → Other.bDataIsReady = true → Other.bSizeRequest = true →
        Other.GetSizeResults DO_CHECK = some Other.Size) := by
  obtain ⟨hc0, hs0⟩ := Construct_flags _ _ _ _ _ hnew
  obtain ⟨b1, _, b3⟩ := Run_flags Before self
  obtain ⟨c1, c2, c3⟩ := Cancel_flags (self.Run Before) CancelImpl
  obtain ⟨a1, a2, a3⟩ := Run_flags After ((self.Run Before).Cancel CancelImpl)
  have hinv0 : self.bCanceled = true → self.bDataIsReady = true := by
    intro h
    rw [hc0] at h
    cases h
  have hready : ((self.Run Before).Cancel CancelImpl).bDataIsReady = true := c3 (b3 hinv0)
  have hcan : (((self.Run Before).Cancel CancelImpl).Run After).bCanceled = true := a2 c1
  have hrdy : (((self.Run Before).Cancel CancelImpl).Run After).bDataIsReady = true :=
    a3 (fun _ => hready) hcan
  have hsize : (((self.Run Before).Cancel CancelImpl).Run After).bSizeRequest = bInSizeRequest :=
    a1.trans (c2.trans (b1.trans hs0))
  refine ⟨fun h => GetSizeResults_of_canceled _ _ hcan hrdy (hsize.trans h),
    fun h => GetReadResults_of_canceled _ _ _ hcan hrdy (hsize.trans h), ?_⟩
  intro Other h1 h2 h3
  unfold IAsyncReadRequest.GetSizeResults check
  simp [h1, h2, h3]

/-- C11, exercised: a size request for which the implementation stored the
size 77 and that is then canceled returns `-1`; a read request holding memory
at address 4096 that is canceled returns null; the size request returns 77
when it completes without being canceled. -/
theorem canceled_request_exposes_no_result_witness :
    IAsyncReadRequest.Construct true none true nullptr = some FreshSizeRequest
    ∧ (((FreshSizeRequest.Run [FEvent.Impl (FImplAction.Store 77)]).Cancel
        [FImplAction.SetComplete]).Run []).GetSizeResults true = some (-1)
    ∧ IAsyncReadRequest.Construct true none false nullptr = some FreshReadRequest
    ∧ (∃ self1,
        (((FreshReadRequest.Run [FEvent.Impl (FImplAction.Store 4096)]).Cancel
            [FImplAction.SetComplete]).Run []).GetReadResults true []
          = some (nullptr, self1))
    ∧ (FreshSizeRequest.Run [FEvent.Impl (FImplAction.Store 77),
          FEvent.Impl FImplAction.SetComplete]).GetSizeResults true = some 77 :=
  ⟨by decide,
   (canceled_request_exposes_no_result true none true nullptr FreshSizeRequest
      [FEvent.Impl (FImplAction.Store 77)] [] [FImplAction.SetComplete] [] (by decide)).1 rfl,
   by decide,
   (canceled_request_exposes_no_result true none false nullptr FreshReadRequest
      [FEvent.Impl (FImplAction.Store 4096)] [] [FImplAction.SetComplete] [] (by decide)).2.1 rfl,
   by decide⟩

end AsyncFileHandle

namespace ToonOutline

/-! ### C12: which mesh batches reach `Process` -/

theorem AddMeshBatch_of_InToonOutlinePass (self : FToonOutlineMeshPassProcessor)
    (MeshBatch : FMeshBatch) (BatchElementMask : Nat) (StaticMeshId : Int) (Material : FMaterial)
    (hm : MeshBatch.MaterialNoFallback = some Material)
    (h : InToonOutlinePass MeshBatch) :
    self.AddMeshBatch MeshBatch BatchElementMask StaticMeshId
      = (self.Process MeshBatch BatchElementMask StaticMeshId Material
          ERasterizerFillMode.FM_Solid ERasterizerCullMode.CM_CCW).2 := by
  obtain ⟨M, h0, h1, h2, h3, h4⟩ := h
  rw [hm] at h0
  cases h0
  unfold FToonOutlineMeshPassProcessor.AddMeshBatch
  simp [hm, h1, h2, h3, h4, FMaterial.HasShadingModel]

theorem AddMeshBatch_of_not_InToonOutlinePass (self : FToonOutlineMeshPassProcessor)
    (MeshBatch : FMeshBatch) (BatchElementMask : Nat) (StaticMeshId : Int)
    (h : ¬ InToonOutlinePass MeshBatch) :
    self.AddMeshBatch MeshBatch BatchElementMask StaticMeshId = self := by
  unfold FToonOutlineMeshPassProcessor.AddMeshBatch
  cases hm : MeshBatch.MaterialNoFallback with
  | none => rfl
  | some Material =>
      simp only
      split
      · split
        · split
          · rename_i h1 h2 h3
            simp only [FMaterial.HasShadingModel, Bool.and_eq_true, decide_eq_true_eq] at h2
            exact absurd ⟨Material, hm, h1, h2.1, h2.2, h3⟩ h
          · rfl
        · rfl
      · rfl

theorem Process_ProcessCalls (self : FToonOutlineMeshPassProcessor)
    (MeshBatch : FMeshBatch) (BatchElementMask : Nat) (StaticMeshId : Int) (Material : FMaterial)
    (Fill : ERasterizerFillMode) (Cull : ERasterizerCullMode) :
    (self.Process MeshBatch BatchElementMask StaticMeshId Material Fill Cull).2.ProcessCalls
      = self.ProcessCalls ++ [⟨BatchElementMask, StaticMeshId, Fill, Cull⟩] := by
  unfold FToonOutlineMeshPassProcessor.Process
  split <;> rfl

theorem Process_BuildMeshDrawCommandsCalls (self : FToonOutlineMeshPassProcessor)
    (MeshBatch : FMeshBatch) (BatchElementMask : Nat) (StaticMeshId : Int) (Material : FMaterial)
    (Fill : ERasterizerFillMode) (Cull : ERasterizerCullMode) :
    (Material.TryGetShaders MeshBatch.VertexFactoryType = true →
      (self.Process MeshBatch BatchElementMask StaticMeshId Material Fill Cull).2.BuildMeshDrawCommandsCalls
        = self.BuildMeshDrawCommandsCalls
          ++ [⟨BatchElementMask,
               { self.PassDrawRenderState with
                 DepthStencilState := EDepthStencilState.Write_GreaterEqual_NoStencil
                 StencilRef := 0 }, Fill, Cull⟩])
    ∧ (Material.TryGetShaders MeshBatch.VertexFactoryType = false →
      (self.Process MeshBatch BatchElementMask StaticMeshId Material Fill Cull).2.BuildMeshDrawCommandsCalls
        = self.BuildMeshDrawCommandsCalls) := by
  unfold FToonOutlineMeshPassProcessor.Process
  constructor <;> intro h <;> simp [h]

theorem Process_Warnings (self : FToonOutlineMeshPassProcessor)
    (MeshBatch : FMeshBatch) (BatchElementMask : Nat) (StaticMeshId : Int) (Material : FMaterial)
    (Fill : ERasterizerFillMode) (Cull : ERasterizerCullMode) :
    (Material.TryGetShaders MeshBatch.VertexFactoryType = true →
      (self.Process MeshBatch BatchElementMask StaticMeshId Material Fill Cull).2.Warnings
        = self.Warnings)
    ∧ (Material.TryGetShaders MeshBatch.VertexFactoryType = false →
      (self.Process MeshBatch BatchElementMask StaticMeshId Material Fill Cull).2.Warnings
        = self.Warnings + 1) := by
  unfold FToonOutlineMeshPassProcessor.Process
  constructor <;> intro h <;> simp [h]

/-- C12, as stated, fails in "and so builds draw commands": for a batch whose
material passes all five tests but has no outline shaders for the batch's
vertex factory, `AddMeshBatch` calls `Process`, and `Process` logs
"Shader Not Found!" and builds no draw command. -/
theorem Process_called_without_draw_commands :
    InToonOutlinePass ⟨some ExampleToonMaterial, "FLandscapeVertexFactory"⟩
    ∧ (ExampleProcessor.AddMeshBatch ⟨some ExampleToonMaterial, "FLandscapeVertexFactory"⟩
        1 (-1)).ProcessCalls
        = [⟨1, -1, ERasterizerFillMode.FM_Solid, ERasterizerCullMode.CM_CCW⟩]
    ∧ (ExampleProcessor.AddMeshBatch ⟨some ExampleToonMaterial, "FLandscapeVertexFactory"⟩
        1 (-1)).BuildMeshDrawCommandsCalls = []
    ∧ (ExampleProcessor.AddMeshBatch ⟨some ExampleToonMaterial, "FLandscapeVertexFactory"⟩
        1 (-1)).Warnings = 1 :=
  ⟨⟨ExampleToonMaterial, rfl, rfl, by decide, rfl, rfl⟩, by decide, by decide, by decide⟩

/-- C12, amended.  For every mesh batch, `AddMeshBatch` calls `Process` if and
only if the batch's material is non-null, has a rendering-thread shader map,
its shading models include `MSM_Toon`, `RenderToonOutline()` is true and its
blend mode is `BLEND_Opaque`; it then calls it once, with solid fill mode and
`CM_CCW` culling, and otherwise leaves the processor as it was.  That call
builds draw commands, with the same two modes, and logs nothing when the
material's outline shaders are found for the batch's vertex factory; it logs
"Shader Not Found!" once and builds none when they are not. -/
theorem AddMeshBatch_calls_Process_iff (self : FToonOutlineMeshPassProcessor)
    (MeshBatch : FMeshBatch) (BatchElementMask : Nat) (StaticMeshId : Int) :
    (InToonOutlinePass MeshBatch ↔
        (self.AddMeshBatch MeshBatch BatchElementMask StaticMeshId).ProcessCalls
          = self.ProcessCalls
            ++ [⟨BatchElementMask, StaticMeshId, ERasterizerFillMode.FM_Solid,
                 ERasterizerCullMode.CM_CCW⟩])
    ∧ (¬ InToonOutlinePass MeshBatch →
        self.AddMeshBatch MeshBatch BatchElementMask StaticMeshId = self)
    ∧ (∀ Material, MeshBatch.MaterialNoFallback = some Material →
        InToonOutlinePass MeshBatch →
        (Material.TryGetShaders MeshBatch.VertexFactoryType = true →
          (self.AddMeshBatch MeshBatch BatchElementMask StaticMeshId).BuildMeshDrawCommandsCalls
            = self.BuildMeshDrawCommandsCalls
              ++ [⟨BatchElementMask,
                   { self.PassDrawRenderState with
                     DepthStencilState := EDepthStencilState.Write_GreaterEqual_NoStencil
                     StencilRef := 0 },
                   ERasterizerFillMode.FM_Solid, ERasterizerCullMode.CM_CCW⟩]
          ∧ (self.AddMeshBatch MeshBatch BatchElementMask StaticMeshId).Warnings
            = self.Warnings)
        ∧ (Material.TryGetShaders MeshBatch.VertexFactoryType = false →
          (self.AddMeshBatch MeshBatch BatchElementMask StaticMeshId).BuildMeshDrawCommandsCalls
            = self.BuildMeshDrawCommandsCalls
          ∧ (self.AddMeshBatch MeshBatch BatchElementMask StaticMeshId).Warnings
            = self.Warnings + 1)) := by
  refine ⟨⟨?_, ?_⟩, AddMeshBatch_of_not_InToonOutlinePass self MeshBatch _ _, ?_⟩
  · intro h
    obtain ⟨M, hm, _⟩ := id h
    rw [AddMeshBatch_of_InToonOutlinePass self MeshBatch _ _ M hm h, Process_ProcessCalls]
  · intro h
    by_contra hn
    rw [AddMeshBatch_of_not_InToonOutlinePass self MeshBatch _ _ hn] at h
    have hlen := congrArg List.length h
    simp at hlen
  · intro Material hm h
    rw [AddMeshBatch_of_InToonOutlinePass self MeshBatch _ _ Material hm h]
    have hb := Process_BuildMeshDrawCommandsCalls self MeshBatch BatchElementMask StaticMeshId
      Material ERasterizerFillMode.FM_Solid ERasterizerCullMode.CM_CCW
    have hw := Process_Warnings self MeshBatch BatchElementMask StaticMeshId
      Material ERasterizerFillMode.FM_Solid ERasterizerCullMode.CM_CCW
    exact ⟨fun hs => ⟨hb.1 hs, hw.1 hs⟩, fun hs => ⟨hb.2 hs, hw.2 hs⟩⟩

/-- C12, exercised: a Toon batch on `FLocalVertexFactory` reaches `Process`
and gets one draw command; a batch without material does not; a Toon batch on
another vertex factory reaches `Process`, gets no draw command and one
warning. -/
theorem AddMeshBatch_calls_Process_iff_witness :
    (ExampleProcessor.AddMeshBatch ⟨some ExampleToonMaterial, "FLocalVertexFactory"⟩
        1 (-1)).ProcessCalls
        = [⟨1, -1, ERasterizerFillMode.FM_Solid, ERasterizerCullMode.CM_CCW⟩]
    ∧ (ExampleProcessor.AddMeshBatch ⟨some ExampleToonMaterial, "FLocalVertexFactory"⟩
        1 (-1)).BuildMeshDrawCommandsCalls.length = 1
    ∧ ExampleProcessor.AddMeshBatch ⟨none, "FLocalVertexFactory"⟩ 1 (-1) = ExampleProcessor
    ∧ (ExampleProcessor.AddMeshBatch ⟨some ExampleToonMaterial, "FLandscapeVertexFactory"⟩
        1 (-1)).Warnings = ExampleProcessor.Warnings + 1 :=
  ⟨(AddMeshBatch_calls_Process_iff ExampleProcessor
      ⟨some ExampleToonMaterial, "FLocalVertexFactory"⟩ 1 (-1)).1.mp
      ⟨ExampleToonMaterial, rfl, rfl, by decide, rfl, rfl⟩,
   by decide,
   (AddMeshBatch_calls_Process_iff ExampleProcessor ⟨none, "FLocalVertexFactory"⟩ 1 (-1)).2.1
      (by rintro ⟨M, hm, _⟩; cases hm),
   ((AddMeshBatch_calls_Process_iff ExampleProcessor
      ⟨some ExampleToonMaterial, "FLandscapeVertexFactory"⟩ 1 (-1)).2.2
      ExampleToonMaterial rfl ⟨ExampleToonMaterial, rfl, rfl, by decide, rfl, rfl⟩).2
      (by decide) |>.2⟩

/-! ### C13: the outline colour bound by the pixel shader -/

theorem GetShaderBindings_binds_R_G_G (Base : List FShaderBinding → List FShaderBinding)
    (Material : FMaterial) (ShaderBindings : List FShaderBinding) :
    FToonOutlinePS.GetShaderBindings Base Material ShaderBindings
      = Base ShaderBindings
        ++ [⟨"OutlineColor",
             FShaderValue.Vector3
               ⟨Material.OutlineColor.R, Material.OutlineColor.G, Material.OutlineColor.G⟩⟩] :=
  rfl

/-- C13, the failing input.  For a material whose outline colour is blue,
`(R, G, B) = (0, 0, 1)`, `FToonOutlinePS::GetShaderBindings` binds
`OutlineColor` to `(0, 0, 0)`: the third coordinate is taken from `G`, not
from `B`.  The vertex shader binds the material's outline width as it is. -/
theorem GetShaderBindings_drops_blue :
    ExampleToonMaterial.OutlineColor = ⟨0, 0, 1, 1⟩
    ∧ FToonOutlinePS.GetShaderBindings id ExampleToonMaterial []
        = [⟨"OutlineColor", FShaderValue.Vector3 ⟨0, 0, 0⟩⟩]
    ∧ FToonOutlinePS.GetShaderBindings id ExampleToonMaterial []
        ≠ [⟨"OutlineColor",
            FShaderValue.Vector3
              ⟨ExampleToonMaterial.OutlineColor.R, ExampleToonMaterial.OutlineColor.G,
               ExampleToonMaterial.OutlineColor.B⟩⟩]
    ∧ FToonOutlineVS.GetShaderBindings id ExampleToonMaterial []
        = [⟨"OutlineWidth", FShaderValue.Float ExampleToonMaterial.OutlineWidth⟩] := by
  decide

end ToonOutline
